import Mathlib

/-!
Verification of the ROAM patch tessellation core of `rts/Map/SMF/ROAM/Patch.cpp`.

Conventions of the shallow embedding:
* C++ pointers to `TriTreeNode` become node identifiers (`Nat`): id `0` is the
  patch's `baseLeft` root, id `1` is `baseRight`, and pool slot `k` is id `k + 2`.
  A null pointer is `none`.
* `float` arithmetic is modelled with exact rationals (`ℚ`); decimal literals
  such as `0.001f` are read as exact decimal fractions.
* The heightmap lookups of `Patch::GetHeight` are modelled by a function
  parameter `h : int2 → ℚ` (the height source is an external collaborator).
* Unbounded C++ recursion is modelled with an explicit fuel argument; a result
  of `none` means the fuel ran out, which has no counterpart in the C++ and is
  excluded by hypothesis in the theorems.
-/

/-- Modelled from the spec: `TriTreeNode` is declared in `Patch.h`, which is not
under `src/`.  Five links, each possibly null ("Links: `LeftChild`, `RightChild`
(owned only while node is a branch), `BaseNeighbor`, `LeftNeighbor`,
`RightNeighbor`"). All links are zero (null) in a freshly reset node. -/
structure TriTreeNode where
  LeftChild : Option Nat := none
  RightChild : Option Nat := none
  BaseNeighbor : Option Nat := none
  LeftNeighbor : Option Nat := none
  RightNeighbor : Option Nat := none
deriving DecidableEq, Repr, Inhabited

/-- Modelled from the spec: "a node is a **leaf** iff both children are
null/absent" (`Patch.h` is not under `src/`). -/
def TriTreeNode.IsLeaf (n : TriTreeNode) : Bool :=
  decide (n.LeftChild = none) && decide (n.RightChild = none)

/-- Modelled from the spec: "a **branch** otherwise". -/
def TriTreeNode.IsBranch (n : TriTreeNode) : Bool :=
  !n.IsLeaf

/-- The node arena: `std::vector<TriTreeNode> pool` plus the watermark
`nextTriNodeIdx` (`Patch.cpp` lines 79-112). -/
structure CTriNodePool where
  pool : List TriTreeNode
  nextTriNodeIdx : Nat
deriving DecidableEq, Repr

/-- Modelled from the spec: `OutOfNodes` is declared in `Patch.h` (not under
`src/`); "`IsExhausted() -> bool`: true when remaining capacity < 2". -/
def CTriNodePool.OutOfNodes (p : CTriNodePool) : Bool :=
  decide (p.pool.length - p.nextTriNodeIdx < 2)

/-- Model of `CTriNodePool::Allocate` (`Patch.cpp` lines 100-112).  The C++ takes the two
output pointers by reference and writes them even on failure; the result is the
returned `bool` together with the two written slot indices and the updated
pool. -/
def CTriNodePool.Allocate (p : CTriNodePool) :
    Bool × Option Nat × Option Nat × CTriNodePool :=
  if p.OutOfNodes then
    (false, none, none, p)
  else
    (true, some p.nextTriNodeIdx, some (p.nextTriNodeIdx + 1),
      { p with nextTriNodeIdx := p.nextTriNodeIdx + 2 })

/-- Model of `CTriNodePool::Reset` (`Patch.cpp` lines 91-98): zero all entries below the
watermark, then rewind the watermark. -/
def CTriNodePool.Reset (p : CTriNodePool) : CTriNodePool :=
  { pool := p.pool.mapIdx fun k n => if k < p.nextTriNodeIdx then default else n,
    nextTriNodeIdx := 0 }

/-- The per-thread pool size computed by `CTriNodePool::InitPools`
(`Patch.cpp` line 38): `max(newPoolSize / numThreads, newPoolSize / 3)`. -/
def CTriNodePool.thrPoolSize (newPoolSize numThreads : Nat) : Nat :=
  max (newPoolSize / numThreads) (newPoolSize / 3)

/-- The capacity each per-thread pool is constructed with
(`Patch.cpp` line 45): `thrPoolSize + (thrPoolSize & 1)`. -/
def CTriNodePool.perThreadCapacity (newPoolSize numThreads : Nat) : Nat :=
  CTriNodePool.thrPoolSize newPoolSize numThreads +
    (CTriNodePool.thrPoolSize newPoolSize numThreads &&& 1)

/-- Model of `CTriNodePool::InitPools` (`Patch.cpp` lines 35-53): one pool per worker
thread, each of `perThreadCapacity` zeroed slots.  The `bad_alloc` retry path
(host memory exhaustion) is not modelled. -/
def CTriNodePool.InitPools (numThreads newPoolSize : Nat) : List CTriNodePool :=
  List.replicate numThreads
    { pool := List.replicate (CTriNodePool.perThreadCapacity newPoolSize numThreads) default,
      nextTriNodeIdx := 0 }

/-- The global state `ResetAll` operates on: the per-thread pools of one pass
together with the file-scope globals `CUR_POOL_SIZE` and `MAX_POOL_SIZE`
(`Patch.cpp` lines 28-29, 32). -/
structure PoolPassState where
  pools : List CTriNodePool
  curPoolSize : Nat
  maxPoolSize : Nat
deriving DecidableEq, Repr

/-- Model of `CTriNodePool::ResetAll` (`Patch.cpp` lines 55-70): remember whether any
pool of the pass ran dry, reset them all, and if one did while the total size
is still below the ceiling, rebuild every pool at twice the current total
(capped at the ceiling). -/
def CTriNodePool.ResetAll (numThreads : Nat) (st : PoolPassState) : PoolPassState :=
  if !(st.pools.foldl (fun acc p => acc || p.OutOfNodes) false) then
    { st with pools := st.pools.map CTriNodePool.Reset }
  else if st.maxPoolSize ≤ st.curPoolSize then
    { st with pools := st.pools.map CTriNodePool.Reset }
  else
    { pools := CTriNodePool.InitPools numThreads (min (st.curPoolSize * 2) st.maxPoolSize),
      curPoolSize := min (st.curPoolSize * 2) st.maxPoolSize,
      maxPoolSize := st.maxPoolSize }

/-- The mutable state `Patch::Split` operates on: the two root nodes (which
live in the `Patch`, outside the pool) and the current node pool. -/
structure SplitState where
  baseLeft : TriTreeNode
  baseRight : TriTreeNode
  pool : CTriNodePool
deriving DecidableEq, Repr

/-- Dereference a node id: `0` is `baseLeft`, `1` is `baseRight`, and `k + 2`
is pool slot `k`. -/
def SplitState.node (s : SplitState) (i : Nat) : TriTreeNode :=
  if i = 0 then s.baseLeft
  else if i = 1 then s.baseRight
  else s.pool.pool.getD (i - 2) default

/-- Write through a node id (update one node in place). -/
def SplitState.updNode (s : SplitState) (i : Nat) (f : TriTreeNode → TriTreeNode) :
    SplitState :=
  if i = 0 then { s with baseLeft := f s.baseLeft }
  else if i = 1 then { s with baseRight := f s.baseRight }
  else { s with pool := { s.pool with
    pool := s.pool.pool.set (i - 2) (f (s.pool.pool.getD (i - 2) default)) } }

/-- Replace the pool component. -/
def SplitState.withPool (s : SplitState) (p : CTriNodePool) : SplitState :=
  { s with pool := p }

/-- Model of `Patch::Split`, steps 4-5 (`Patch.cpp` lines 249-280): record the fresh
children `l`, `r` in the parent `t`, fill the children in from the parent's
neighbor links, then re-point the left and right neighbors at the new
children by inspecting which of their slots referenced `t` (no match is
silently ignored, mirroring the "illegal neighbor" comment). -/
def Patch.SplitWire (s : SplitState) (t l r : Nat) : SplitState :=
  let s := s.updNode t fun n => { n with LeftChild := some l, RightChild := some r }
  -- fill in the information we can get from the parent
  let s := s.updNode l fun n =>
    { n with BaseNeighbor := (s.node t).LeftNeighbor, LeftNeighbor := some r }
  let s := s.updNode r fun n =>
    { n with BaseNeighbor := (s.node t).RightNeighbor, RightNeighbor := some l }
  -- link our left-neighbor to the new children
  let s :=
    match (s.node t).LeftNeighbor with
    | none => s
    | some ln =>
      if (s.node ln).BaseNeighbor = some t then
        s.updNode ln fun n => { n with BaseNeighbor := some l }
      else if (s.node ln).LeftNeighbor = some t then
        s.updNode ln fun n => { n with LeftNeighbor := some l }
      else if (s.node ln).RightNeighbor = some t then
        s.updNode ln fun n => { n with RightNeighbor := some l }
      else s
  -- link our right-neighbor to the new children
  match (s.node t).RightNeighbor with
  | none => s
  | some rn =>
    if (s.node rn).BaseNeighbor = some t then
      s.updNode rn fun n => { n with BaseNeighbor := some r }
    else if (s.node rn).RightNeighbor = some t then
      s.updNode rn fun n => { n with RightNeighbor := some r }
    else if (s.node rn).LeftNeighbor = some t then
      s.updNode rn fun n => { n with LeftNeighbor := some r }
    else s

/-- Model of `Patch::Split`, step 6, branch case (`Patch.cpp` lines 284-289): the base
neighbor `b` is already split, so cross-link its children with `t`'s children,
completing the diamond on both sides. -/
def Patch.SplitCrossLink (s : SplitState) (t b : Nat) : SplitState :=
  let s :=
    match (s.node b).LeftChild with
    | some bl => s.updNode bl fun n => { n with RightNeighbor := (s.node t).RightChild }
    | none => s
  let s :=
    match (s.node b).RightChild with
    | some br => s.updNode br fun n => { n with LeftNeighbor := (s.node t).LeftChild }
    | none => s
  let s :=
    match (s.node t).LeftChild with
    | some tl => s.updNode tl fun n => { n with RightNeighbor := (s.node b).RightChild }
    | none => s
  match (s.node t).RightChild with
  | some tr => s.updNode tr fun n => { n with LeftNeighbor := (s.node b).LeftChild }
  | none => s

/-- Model of `Patch::Split`, step 7 (`Patch.cpp` lines 294-298): no base neighbor (patch
edge), so the new children's opposite-edge neighbor slots are cleared. -/
def Patch.SplitClearEdge (s : SplitState) (t : Nat) : SplitState :=
  let s :=
    match (s.node t).LeftChild with
    | some tl => s.updNode tl fun n => { n with RightNeighbor := none }
    | none => s
  match (s.node t).RightChild with
  | some tr => s.updNode tr fun n => { n with LeftNeighbor := none }
  | none => s

/-- Model of `Patch::Split`, step 6-7 dispatch (`Patch.cpp` lines 283-298), applied to
the state `s'` left by the wiring: cross-link an already-split base neighbor,
recursively split a still-leaf one (result discarded), or clear the edge
slots when there is no base neighbor. -/
def Patch.SplitBase (rec : SplitState → Nat → Option (SplitState × Bool))
    (s' : SplitState) (t : Nat) : Option (SplitState × Bool) :=
  match (s'.node t).BaseNeighbor with
  | some b =>
    if (s'.node b).IsBranch then some (Patch.SplitCrossLink s' t b, true)
    else
      -- base neighbor (in a diamond with us) was not split yet, do so now
      match rec s' b with
      | none => none
      | some (s'', _) => some (s'', true)
  | none => some (Patch.SplitClearEdge s' t, true)

/-- Model of `Patch::Split`, steps 3-7 (`Patch.cpp` lines 246-300): allocate the two
children (the C++ writes `tri->LeftChild` and `tri->RightChild` through the
reference parameters of `Allocate`, also on failure), then wire, re-point and
settle the diamond via `SplitWire` and `SplitBase`. -/
def Patch.SplitFinish (rec : SplitState → Nat → Option (SplitState × Bool))
    (s : SplitState) (t : Nat) : Option (SplitState × Bool) :=
  match s.pool.Allocate with
  | (false, lc, rc, p') =>
    some ((s.withPool p').updNode t fun n => { n with LeftChild := lc, RightChild := rc },
      false)
  | (true, some lk, some rk, p') =>
    Patch.SplitBase rec (Patch.SplitWire (s.withPool p') t (lk + 2) (rk + 2)) t
  | (true, _, _, _) => none  -- Allocate never succeeds with a null handle

/-- Model of `Patch::Split`, steps 1-2 (`Patch.cpp` lines 235-247): return success at
once on a branch, force-split an unpaired base neighbor first (result
discarded), then run the allocation/wiring tail. -/
def Patch.SplitGo (rec : SplitState → Nat → Option (SplitState × Bool))
    (s : SplitState) (t : Nat) : Option (SplitState × Bool) :=
  if (s.node t).IsLeaf then
    match (s.node t).BaseNeighbor with
    | some b =>
      if (s.node b).BaseNeighbor ≠ some t then
        match rec s b with
        | none => none
        | some (s', _) => Patch.SplitFinish rec s' t
      else Patch.SplitFinish rec s t
    | none => Patch.SplitFinish rec s t
  else some (s, true)

/-- Model of `Patch::Split` (`Patch.cpp` lines 235-301), with fuel for the unbounded
C++ recursion. -/
def Patch.Split : Nat → SplitState → Nat → Option (SplitState × Bool)
  | 0, _, _ => none
  | fuel + 1, s, t => Patch.SplitGo (Patch.Split fuel) s t

/-- Model of `Patch::Reset` (`Patch.cpp` lines 183-192) together with a freshly reset
pool of the given capacity: both base triangles are rebuilt as leaves whose
`BaseNeighbor` links attach them to each other, and every pool slot is zero. -/
def Patch.ResetPatch (poolSize : Nat) : SplitState :=
  { baseLeft := { BaseNeighbor := some 1 },
    baseRight := { BaseNeighbor := some 0 },
    pool := { pool := List.replicate poolSize default, nextTriNodeIdx := 0 } }

/-- The states a freshly reset patch can be driven to by any sequence of
`Patch::Split` calls on live nodes (the roots and every allocated slot). -/
inductive Patch.ReachSplit (poolSize : Nat) : SplitState → Prop
  | init : Patch.ReachSplit poolSize (Patch.ResetPatch poolSize)
  | step {s s' : SplitState} {i fuel : Nat} {r : Bool} :
      Patch.ReachSplit poolSize s →
      i < 2 + s.pool.nextTriNodeIdx →
      Patch.Split fuel s i = some (s', r) →
      Patch.ReachSplit poolSize s'

/-- Boolean membership in a list of split states. -/
def memS (s : SplitState) (l : List SplitState) : Bool :=
  l.any fun x => decide (x = s)

/-- Reachable state 0 of the capacity-8 split model. -/
def C1S0 : SplitState :=
  { baseLeft := { BaseNeighbor := some 1 }, baseRight := { BaseNeighbor := some 0 }, pool := { pool := [default, default, default, default, default, default, default, default], nextTriNodeIdx := 0 } }

/-- Reachable state 1 of the capacity-8 split model. -/
def C1S1 : SplitState :=
  { baseLeft := { LeftChild := some 2, RightChild := some 3, BaseNeighbor := some 1 }, baseRight := { LeftChild := some 4, RightChild := some 5, BaseNeighbor := some 0 }, pool := { pool := [{ LeftNeighbor := some 3, RightNeighbor := some 5 }, { LeftNeighbor := some 4, RightNeighbor := some 2 }, { LeftNeighbor := some 5, RightNeighbor := some 3 }, { LeftNeighbor := some 2, RightNeighbor := some 4 }, default, default, default, default], nextTriNodeIdx := 4 } }

/-- Reachable state 2 of the capacity-8 split model. -/
def C1S2 : SplitState :=
  { baseLeft := { LeftChild := some 4, RightChild := some 5, BaseNeighbor := some 1 }, baseRight := { LeftChild := some 2, RightChild := some 3, BaseNeighbor := some 0 }, pool := { pool := [{ LeftNeighbor := some 3, RightNeighbor := some 5 }, { LeftNeighbor := some 4, RightNeighbor := some 2 }, { LeftNeighbor := some 5, RightNeighbor := some 3 }, { LeftNeighbor := some 2, RightNeighbor := some 4 }, default, default, default, default], nextTriNodeIdx := 4 } }

/-- Reachable state 3 of the capacity-8 split model. -/
def C1S3 : SplitState :=
  { baseLeft := { LeftChild := some 2, RightChild := some 3, BaseNeighbor := some 1 }, baseRight := { LeftChild := some 4, RightChild := some 5, BaseNeighbor := some 0 }, pool := { pool := [{ LeftChild := some 6, RightChild := some 7, LeftNeighbor := some 3, RightNeighbor := some 5 }, { LeftNeighbor := some 4, RightNeighbor := some 6 }, { LeftNeighbor := some 5, RightNeighbor := some 3 }, { LeftNeighbor := some 7, RightNeighbor := some 4 }, { BaseNeighbor := some 3, LeftNeighbor := some 7 }, { BaseNeighbor := some 5, RightNeighbor := some 6 }, default, default], nextTriNodeIdx := 6 } }

/-- Reachable state 4 of the capacity-8 split model. -/
def C1S4 : SplitState :=
  { baseLeft := { LeftChild := some 2, RightChild := some 3, BaseNeighbor := some 1 }, baseRight := { LeftChild := some 4, RightChild := some 5, BaseNeighbor := some 0 }, pool := { pool := [{ LeftNeighbor := some 7, RightNeighbor := some 5 }, { LeftChild := some 6, RightChild := some 7, LeftNeighbor := some 4, RightNeighbor := some 2 }, { LeftNeighbor := some 5, RightNeighbor := some 6 }, { LeftNeighbor := some 2, RightNeighbor := some 4 }, { BaseNeighbor := some 4, LeftNeighbor := some 7 }, { BaseNeighbor := some 2, RightNeighbor := some 6 }, default, default], nextTriNodeIdx := 6 } }

/-- Reachable state 5 of the capacity-8 split model. -/
def C1S5 : SplitState :=
  { baseLeft := { LeftChild := some 2, RightChild := some 3, BaseNeighbor := some 1 }, baseRight := { LeftChild := some 4, RightChild := some 5, BaseNeighbor := some 0 }, pool := { pool := [{ LeftNeighbor := some 3, RightNeighbor := some 5 }, { LeftNeighbor := some 7, RightNeighbor := some 2 }, { LeftChild := some 6, RightChild := some 7, LeftNeighbor := some 5, RightNeighbor := some 3 }, { LeftNeighbor := some 2, RightNeighbor := some 6 }, { BaseNeighbor := some 5, LeftNeighbor := some 7 }, { BaseNeighbor := some 3, RightNeighbor := some 6 }, default, default], nextTriNodeIdx := 6 } }

/-- Reachable state 6 of the capacity-8 split model. -/
def C1S6 : SplitState :=
  { baseLeft := { LeftChild := some 2, RightChild := some 3, BaseNeighbor := some 1 }, baseRight := { LeftChild := some 4, RightChild := some 5, BaseNeighbor := some 0 }, pool := { pool := [{ LeftNeighbor := some 3, RightNeighbor := some 6 }, { LeftNeighbor := some 4, RightNeighbor := some 2 }, { LeftNeighbor := some 7, RightNeighbor := some 3 }, { LeftChild := some 6, RightChild := some 7, LeftNeighbor := some 2, RightNeighbor := some 4 }, { BaseNeighbor := some 2, LeftNeighbor := some 7 }, { BaseNeighbor := some 4, RightNeighbor := some 6 }, default, default], nextTriNodeIdx := 6 } }

/-- Reachable state 7 of the capacity-8 split model. -/
def C1S7 : SplitState :=
  { baseLeft := { LeftChild := some 4, RightChild := some 5, BaseNeighbor := some 1 }, baseRight := { LeftChild := some 2, RightChild := some 3, BaseNeighbor := some 0 }, pool := { pool := [{ LeftChild := some 6, RightChild := some 7, LeftNeighbor := some 3, RightNeighbor := some 5 }, { LeftNeighbor := some 4, RightNeighbor := some 6 }, { LeftNeighbor := some 5, RightNeighbor := some 3 }, { LeftNeighbor := some 7, RightNeighbor := some 4 }, { BaseNeighbor := some 3, LeftNeighbor := some 7 }, { BaseNeighbor := some 5, RightNeighbor := some 6 }, default, default], nextTriNodeIdx := 6 } }

/-- Reachable state 8 of the capacity-8 split model. -/
def C1S8 : SplitState :=
  { baseLeft := { LeftChild := some 4, RightChild := some 5, BaseNeighbor := some 1 }, baseRight := { LeftChild := some 2, RightChild := some 3, BaseNeighbor := some 0 }, pool := { pool := [{ LeftNeighbor := some 7, RightNeighbor := some 5 }, { LeftChild := some 6, RightChild := some 7, LeftNeighbor := some 4, RightNeighbor := some 2 }, { LeftNeighbor := some 5, RightNeighbor := some 6 }, { LeftNeighbor := some 2, RightNeighbor := some 4 }, { BaseNeighbor := some 4, LeftNeighbor := some 7 }, { BaseNeighbor := some 2, RightNeighbor := some 6 }, default, default], nextTriNodeIdx := 6 } }

/-- Reachable state 9 of the capacity-8 split model. -/
def C1S9 : SplitState :=
  { baseLeft := { LeftChild := some 4, RightChild := some 5, BaseNeighbor := some 1 }, baseRight := { LeftChild := some 2, RightChild := some 3, BaseNeighbor := some 0 }, pool := { pool := [{ LeftNeighbor := some 3, RightNeighbor := some 5 }, { LeftNeighbor := some 7, RightNeighbor := some 2 }, { LeftChild := some 6, RightChild := some 7, LeftNeighbor := some 5, RightNeighbor := some 3 }, { LeftNeighbor := some 2, RightNeighbor := some 6 }, { BaseNeighbor := some 5, LeftNeighbor := some 7 }, { BaseNeighbor := some 3, RightNeighbor := some 6 }, default, default], nextTriNodeIdx := 6 } }

/-- Reachable state 10 of the capacity-8 split model. -/
def C1S10 : SplitState :=
  { baseLeft := { LeftChild := some 4, RightChild := some 5, BaseNeighbor := some 1 }, baseRight := { LeftChild := some 2, RightChild := some 3, BaseNeighbor := some 0 }, pool := { pool := [{ LeftNeighbor := some 3, RightNeighbor := some 6 }, { LeftNeighbor := some 4, RightNeighbor := some 2 }, { LeftNeighbor := some 7, RightNeighbor := some 3 }, { LeftChild := some 6, RightChild := some 7, LeftNeighbor := some 2, RightNeighbor := some 4 }, { BaseNeighbor := some 2, LeftNeighbor := some 7 }, { BaseNeighbor := some 4, RightNeighbor := some 6 }, default, default], nextTriNodeIdx := 6 } }

/-- Reachable state 11 of the capacity-8 split model. -/
def C1S11 : SplitState :=
  { baseLeft := { LeftChild := some 2, RightChild := some 3, BaseNeighbor := some 1 }, baseRight := { LeftChild := some 4, RightChild := some 5, BaseNeighbor := some 0 }, pool := { pool := [{ LeftChild := some 6, RightChild := some 7, LeftNeighbor := some 3, RightNeighbor := some 5 }, { LeftChild := some 8, RightChild := some 9, LeftNeighbor := some 4, RightNeighbor := some 6 }, { LeftNeighbor := some 5, RightNeighbor := some 8 }, { LeftNeighbor := some 7, RightNeighbor := some 4 }, { BaseNeighbor := some 9, LeftNeighbor := some 7 }, { BaseNeighbor := some 5, RightNeighbor := some 6 }, { BaseNeighbor := some 4, LeftNeighbor := some 9 }, { BaseNeighbor := some 6, RightNeighbor := some 8 }], nextTriNodeIdx := 8 } }

/-- Reachable state 12 of the capacity-8 split model. -/
def C1S12 : SplitState :=
  { baseLeft := { LeftChild := some 2, RightChild := some 3, BaseNeighbor := some 1 }, baseRight := { LeftChild := some 4, RightChild := some 5, BaseNeighbor := some 0 }, pool := { pool := [{ LeftChild := some 6, RightChild := some 7, LeftNeighbor := some 3, RightNeighbor := some 5 }, { LeftNeighbor := some 9, RightNeighbor := some 6 }, { LeftChild := some 8, RightChild := some 9, LeftNeighbor := some 5, RightNeighbor := some 3 }, { LeftNeighbor := some 7, RightNeighbor := some 8 }, { BaseNeighbor := some 3, LeftNeighbor := some 7 }, { BaseNeighbor := some 5, RightNeighbor := some 6 }, { BaseNeighbor := some 5, LeftNeighbor := some 9 }, { BaseNeighbor := some 3, RightNeighbor := some 8 }], nextTriNodeIdx := 8 } }

/-- Reachable state 13 of the capacity-8 split model. -/
def C1S13 : SplitState :=
  { baseLeft := { LeftChild := some 2, RightChild := some 3, BaseNeighbor := some 1 }, baseRight := { LeftChild := some 4, RightChild := some 5, BaseNeighbor := some 0 }, pool := { pool := [{ LeftChild := some 6, RightChild := some 7, LeftNeighbor := some 3, RightNeighbor := some 5 }, { LeftNeighbor := some 4, RightNeighbor := some 6 }, { LeftNeighbor := some 9, RightNeighbor := some 3 }, { LeftChild := some 8, RightChild := some 9, LeftNeighbor := some 7, RightNeighbor := some 4 }, { BaseNeighbor := some 3, LeftNeighbor := some 7 }, { BaseNeighbor := some 8, RightNeighbor := some 6 }, { BaseNeighbor := some 7, LeftNeighbor := some 9 }, { BaseNeighbor := some 4, RightNeighbor := some 8 }], nextTriNodeIdx := 8 } }

/-- Reachable state 14 of the capacity-8 split model. -/
def C1S14 : SplitState :=
  { baseLeft := { LeftChild := some 2, RightChild := some 3, BaseNeighbor := some 1 }, baseRight := { LeftChild := some 4, RightChild := some 5, BaseNeighbor := some 0 }, pool := { pool := [{ LeftChild := some 8, RightChild := some 9, LeftNeighbor := some 7, RightNeighbor := some 5 }, { LeftChild := some 6, RightChild := some 7, LeftNeighbor := some 4, RightNeighbor := some 2 }, { LeftNeighbor := some 5, RightNeighbor := some 6 }, { LeftNeighbor := some 9, RightNeighbor := some 4 }, { BaseNeighbor := some 4, LeftNeighbor := some 7 }, { BaseNeighbor := some 8, RightNeighbor := some 6 }, { BaseNeighbor := some 7, LeftNeighbor := some 9 }, { BaseNeighbor := some 5, RightNeighbor := some 8 }], nextTriNodeIdx := 8 } }

/-- Reachable state 15 of the capacity-8 split model. -/
def C1S15 : SplitState :=
  { baseLeft := { LeftChild := some 2, RightChild := some 3, BaseNeighbor := some 1 }, baseRight := { LeftChild := some 4, RightChild := some 5, BaseNeighbor := some 0 }, pool := { pool := [{ LeftNeighbor := some 7, RightNeighbor := some 5 }, { LeftChild := some 6, RightChild := some 7, LeftNeighbor := some 4, RightNeighbor := some 2 }, { LeftChild := some 8, RightChild := some 9, LeftNeighbor := some 5, RightNeighbor := some 6 }, { LeftNeighbor := some 2, RightNeighbor := some 8 }, { BaseNeighbor := some 9, LeftNeighbor := some 7 }, { BaseNeighbor := some 2, RightNeighbor := some 6 }, { BaseNeighbor := some 5, LeftNeighbor := some 9 }, { BaseNeighbor := some 6, RightNeighbor := some 8 }], nextTriNodeIdx := 8 } }

/-- Reachable state 16 of the capacity-8 split model. -/
def C1S16 : SplitState :=
  { baseLeft := { LeftChild := some 2, RightChild := some 3, BaseNeighbor := some 1 }, baseRight := { LeftChild := some 4, RightChild := some 5, BaseNeighbor := some 0 }, pool := { pool := [{ LeftNeighbor := some 7, RightNeighbor := some 8 }, { LeftChild := some 6, RightChild := some 7, LeftNeighbor := some 4, RightNeighbor := some 2 }, { LeftNeighbor := some 9, RightNeighbor := some 6 }, { LeftChild := some 8, RightChild := some 9, LeftNeighbor := some 2, RightNeighbor := some 4 }, { BaseNeighbor := some 4, LeftNeighbor := some 7 }, { BaseNeighbor := some 2, RightNeighbor := some 6 }, { BaseNeighbor := some 2, LeftNeighbor := some 9 }, { BaseNeighbor := some 4, RightNeighbor := some 8 }], nextTriNodeIdx := 8 } }

/-- Reachable state 17 of the capacity-8 split model. -/
def C1S17 : SplitState :=
  { baseLeft := { LeftChild := some 2, RightChild := some 3, BaseNeighbor := some 1 }, baseRight := { LeftChild := some 4, RightChild := some 5, BaseNeighbor := some 0 }, pool := { pool := [{ LeftChild := some 8, RightChild := some 9, LeftNeighbor := some 3, RightNeighbor := some 5 }, { LeftNeighbor := some 7, RightNeighbor := some 8 }, { LeftChild := some 6, RightChild := some 7, LeftNeighbor := some 5, RightNeighbor := some 3 }, { LeftNeighbor := some 9, RightNeighbor := some 6 }, { BaseNeighbor := some 5, LeftNeighbor := some 7 }, { BaseNeighbor := some 3, RightNeighbor := some 6 }, { BaseNeighbor := some 3, LeftNeighbor := some 9 }, { BaseNeighbor := some 5, RightNeighbor := some 8 }], nextTriNodeIdx := 8 } }

/-- Reachable state 18 of the capacity-8 split model. -/
def C1S18 : SplitState :=
  { baseLeft := { LeftChild := some 2, RightChild := some 3, BaseNeighbor := some 1 }, baseRight := { LeftChild := some 4, RightChild := some 5, BaseNeighbor := some 0 }, pool := { pool := [{ LeftNeighbor := some 9, RightNeighbor := some 5 }, { LeftChild := some 8, RightChild := some 9, LeftNeighbor := some 7, RightNeighbor := some 2 }, { LeftChild := some 6, RightChild := some 7, LeftNeighbor := some 5, RightNeighbor := some 3 }, { LeftNeighbor := some 2, RightNeighbor := some 6 }, { BaseNeighbor := some 5, LeftNeighbor := some 7 }, { BaseNeighbor := some 8, RightNeighbor := some 6 }, { BaseNeighbor := some 7, LeftNeighbor := some 9 }, { BaseNeighbor := some 2, RightNeighbor := some 8 }], nextTriNodeIdx := 8 } }

/-- Reachable state 19 of the capacity-8 split model. -/
def C1S19 : SplitState :=
  { baseLeft := { LeftChild := some 2, RightChild := some 3, BaseNeighbor := some 1 }, baseRight := { LeftChild := some 4, RightChild := some 5, BaseNeighbor := some 0 }, pool := { pool := [{ LeftNeighbor := some 3, RightNeighbor := some 8 }, { LeftNeighbor := some 7, RightNeighbor := some 2 }, { LeftChild := some 6, RightChild := some 7, LeftNeighbor := some 5, RightNeighbor := some 3 }, { LeftChild := some 8, RightChild := some 9, LeftNeighbor := some 2, RightNeighbor := some 6 }, { BaseNeighbor := some 9, LeftNeighbor := some 7 }, { BaseNeighbor := some 3, RightNeighbor := some 6 }, { BaseNeighbor := some 2, LeftNeighbor := some 9 }, { BaseNeighbor := some 6, RightNeighbor := some 8 }], nextTriNodeIdx := 8 } }

/-- Reachable state 20 of the capacity-8 split model. -/
def C1S20 : SplitState :=
  { baseLeft := { LeftChild := some 2, RightChild := some 3, BaseNeighbor := some 1 }, baseRight := { LeftChild := some 4, RightChild := some 5, BaseNeighbor := some 0 }, pool := { pool := [{ LeftChild := some 8, RightChild := some 9, LeftNeighbor := some 3, RightNeighbor := some 6 }, { LeftNeighbor := some 4, RightNeighbor := some 8 }, { LeftNeighbor := some 7, RightNeighbor := some 3 }, { LeftChild := some 6, RightChild := some 7, LeftNeighbor := some 2, RightNeighbor := some 4 }, { BaseNeighbor := some 9, LeftNeighbor := some 7 }, { BaseNeighbor := some 4, RightNeighbor := some 6 }, { BaseNeighbor := some 3, LeftNeighbor := some 9 }, { BaseNeighbor := some 6, RightNeighbor := some 8 }], nextTriNodeIdx := 8 } }

/-- Reachable state 21 of the capacity-8 split model. -/
def C1S21 : SplitState :=
  { baseLeft := { LeftChild := some 2, RightChild := some 3, BaseNeighbor := some 1 }, baseRight := { LeftChild := some 4, RightChild := some 5, BaseNeighbor := some 0 }, pool := { pool := [{ LeftNeighbor := some 9, RightNeighbor := some 6 }, { LeftChild := some 8, RightChild := some 9, LeftNeighbor := some 4, RightNeighbor := some 2 }, { LeftNeighbor := some 7, RightNeighbor := some 8 }, { LeftChild := some 6, RightChild := some 7, LeftNeighbor := some 2, RightNeighbor := some 4 }, { BaseNeighbor := some 2, LeftNeighbor := some 7 }, { BaseNeighbor := some 4, RightNeighbor := some 6 }, { BaseNeighbor := some 4, LeftNeighbor := some 9 }, { BaseNeighbor := some 2, RightNeighbor := some 8 }], nextTriNodeIdx := 8 } }

/-- Reachable state 22 of the capacity-8 split model. -/
def C1S22 : SplitState :=
  { baseLeft := { LeftChild := some 2, RightChild := some 3, BaseNeighbor := some 1 }, baseRight := { LeftChild := some 4, RightChild := some 5, BaseNeighbor := some 0 }, pool := { pool := [{ LeftNeighbor := some 3, RightNeighbor := some 6 }, { LeftNeighbor := some 9, RightNeighbor := some 2 }, { LeftChild := some 8, RightChild := some 9, LeftNeighbor := some 7, RightNeighbor := some 3 }, { LeftChild := some 6, RightChild := some 7, LeftNeighbor := some 2, RightNeighbor := some 4 }, { BaseNeighbor := some 2, LeftNeighbor := some 7 }, { BaseNeighbor := some 8, RightNeighbor := some 6 }, { BaseNeighbor := some 7, LeftNeighbor := some 9 }, { BaseNeighbor := some 3, RightNeighbor := some 8 }], nextTriNodeIdx := 8 } }

/-- Reachable state 23 of the capacity-8 split model. -/
def C1S23 : SplitState :=
  { baseLeft := { LeftChild := some 4, RightChild := some 5, BaseNeighbor := some 1 }, baseRight := { LeftChild := some 2, RightChild := some 3, BaseNeighbor := some 0 }, pool := { pool := [{ LeftChild := some 6, RightChild := some 7, LeftNeighbor := some 3, RightNeighbor := some 5 }, { LeftChild := some 8, RightChild := some 9, LeftNeighbor := some 4, RightNeighbor := some 6 }, { LeftNeighbor := some 5, RightNeighbor := some 8 }, { LeftNeighbor := some 7, RightNeighbor := some 4 }, { BaseNeighbor := some 9, LeftNeighbor := some 7 }, { BaseNeighbor := some 5, RightNeighbor := some 6 }, { BaseNeighbor := some 4, LeftNeighbor := some 9 }, { BaseNeighbor := some 6, RightNeighbor := some 8 }], nextTriNodeIdx := 8 } }

/-- Reachable state 24 of the capacity-8 split model. -/
def C1S24 : SplitState :=
  { baseLeft := { LeftChild := some 4, RightChild := some 5, BaseNeighbor := some 1 }, baseRight := { LeftChild := some 2, RightChild := some 3, BaseNeighbor := some 0 }, pool := { pool := [{ LeftChild := some 6, RightChild := some 7, LeftNeighbor := some 3, RightNeighbor := some 5 }, { LeftNeighbor := some 9, RightNeighbor := some 6 }, { LeftChild := some 8, RightChild := some 9, LeftNeighbor := some 5, RightNeighbor := some 3 }, { LeftNeighbor := some 7, RightNeighbor := some 8 }, { BaseNeighbor := some 3, LeftNeighbor := some 7 }, { BaseNeighbor := some 5, RightNeighbor := some 6 }, { BaseNeighbor := some 5, LeftNeighbor := some 9 }, { BaseNeighbor := some 3, RightNeighbor := some 8 }], nextTriNodeIdx := 8 } }

/-- Reachable state 25 of the capacity-8 split model. -/
def C1S25 : SplitState :=
  { baseLeft := { LeftChild := some 4, RightChild := some 5, BaseNeighbor := some 1 }, baseRight := { LeftChild := some 2, RightChild := some 3, BaseNeighbor := some 0 }, pool := { pool := [{ LeftChild := some 6, RightChild := some 7, LeftNeighbor := some 3, RightNeighbor := some 5 }, { LeftNeighbor := some 4, RightNeighbor := some 6 }, { LeftNeighbor := some 9, RightNeighbor := some 3 }, { LeftChild := some 8, RightChild := some 9, LeftNeighbor := some 7, RightNeighbor := some 4 }, { BaseNeighbor := some 3, LeftNeighbor := some 7 }, { BaseNeighbor := some 8, RightNeighbor := some 6 }, { BaseNeighbor := some 7, LeftNeighbor := some 9 }, { BaseNeighbor := some 4, RightNeighbor := some 8 }], nextTriNodeIdx := 8 } }

/-- Reachable state 26 of the capacity-8 split model. -/
def C1S26 : SplitState :=
  { baseLeft := { LeftChild := some 4, RightChild := some 5, BaseNeighbor := some 1 }, baseRight := { LeftChild := some 2, RightChild := some 3, BaseNeighbor := some 0 }, pool := { pool := [{ LeftChild := some 8, RightChild := some 9, LeftNeighbor := some 7, RightNeighbor := some 5 }, { LeftChild := some 6, RightChild := some 7, LeftNeighbor := some 4, RightNeighbor := some 2 }, { LeftNeighbor := some 5, RightNeighbor := some 6 }, { LeftNeighbor := some 9, RightNeighbor := some 4 }, { BaseNeighbor := some 4, LeftNeighbor := some 7 }, { BaseNeighbor := some 8, RightNeighbor := some 6 }, { BaseNeighbor := some 7, LeftNeighbor := some 9 }, { BaseNeighbor := some 5, RightNeighbor := some 8 }], nextTriNodeIdx := 8 } }

/-- Reachable state 27 of the capacity-8 split model. -/
def C1S27 : SplitState :=
  { baseLeft := { LeftChild := some 4, RightChild := some 5, BaseNeighbor := some 1 }, baseRight := { LeftChild := some 2, RightChild := some 3, BaseNeighbor := some 0 }, pool := { pool := [{ LeftNeighbor := some 7, RightNeighbor := some 5 }, { LeftChild := some 6, RightChild := some 7, LeftNeighbor := some 4, RightNeighbor := some 2 }, { LeftChild := some 8, RightChild := some 9, LeftNeighbor := some 5, RightNeighbor := some 6 }, { LeftNeighbor := some 2, RightNeighbor := some 8 }, { BaseNeighbor := some 9, LeftNeighbor := some 7 }, { BaseNeighbor := some 2, RightNeighbor := some 6 }, { BaseNeighbor := some 5, LeftNeighbor := some 9 }, { BaseNeighbor := some 6, RightNeighbor := some 8 }], nextTriNodeIdx := 8 } }

/-- Reachable state 28 of the capacity-8 split model. -/
def C1S28 : SplitState :=
  { baseLeft := { LeftChild := some 4, RightChild := some 5, BaseNeighbor := some 1 }, baseRight := { LeftChild := some 2, RightChild := some 3, BaseNeighbor := some 0 }, pool := { pool := [{ LeftNeighbor := some 7, RightNeighbor := some 8 }, { LeftChild := some 6, RightChild := some 7, LeftNeighbor := some 4, RightNeighbor := some 2 }, { LeftNeighbor := some 9, RightNeighbor := some 6 }, { LeftChild := some 8, RightChild := some 9, LeftNeighbor := some 2, RightNeighbor := some 4 }, { BaseNeighbor := some 4, LeftNeighbor := some 7 }, { BaseNeighbor := some 2, RightNeighbor := some 6 }, { BaseNeighbor := some 2, LeftNeighbor := some 9 }, { BaseNeighbor := some 4, RightNeighbor := some 8 }], nextTriNodeIdx := 8 } }

/-- Reachable state 29 of the capacity-8 split model. -/
def C1S29 : SplitState :=
  { baseLeft := { LeftChild := some 4, RightChild := some 5, BaseNeighbor := some 1 }, baseRight := { LeftChild := some 2, RightChild := some 3, BaseNeighbor := some 0 }, pool := { pool := [{ LeftChild := some 8, RightChild := some 9, LeftNeighbor := some 3, RightNeighbor := some 5 }, { LeftNeighbor := some 7, RightNeighbor := some 8 }, { LeftChild := some 6, RightChild := some 7, LeftNeighbor := some 5, RightNeighbor := some 3 }, { LeftNeighbor := some 9, RightNeighbor := some 6 }, { BaseNeighbor := some 5, LeftNeighbor := some 7 }, { BaseNeighbor := some 3, RightNeighbor := some 6 }, { BaseNeighbor := some 3, LeftNeighbor := some 9 }, { BaseNeighbor := some 5, RightNeighbor := some 8 }], nextTriNodeIdx := 8 } }

/-- Reachable state 30 of the capacity-8 split model. -/
def C1S30 : SplitState :=
  { baseLeft := { LeftChild := some 4, RightChild := some 5, BaseNeighbor := some 1 }, baseRight := { LeftChild := some 2, RightChild := some 3, BaseNeighbor := some 0 }, pool := { pool := [{ LeftNeighbor := some 9, RightNeighbor := some 5 }, { LeftChild := some 8, RightChild := some 9, LeftNeighbor := some 7, RightNeighbor := some 2 }, { LeftChild := some 6, RightChild := some 7, LeftNeighbor := some 5, RightNeighbor := some 3 }, { LeftNeighbor := some 2, RightNeighbor := some 6 }, { BaseNeighbor := some 5, LeftNeighbor := some 7 }, { BaseNeighbor := some 8, RightNeighbor := some 6 }, { BaseNeighbor := some 7, LeftNeighbor := some 9 }, { BaseNeighbor := some 2, RightNeighbor := some 8 }], nextTriNodeIdx := 8 } }

/-- Reachable state 31 of the capacity-8 split model. -/
def C1S31 : SplitState :=
  { baseLeft := { LeftChild := some 4, RightChild := some 5, BaseNeighbor := some 1 }, baseRight := { LeftChild := some 2, RightChild := some 3, BaseNeighbor := some 0 }, pool := { pool := [{ LeftNeighbor := some 3, RightNeighbor := some 8 }, { LeftNeighbor := some 7, RightNeighbor := some 2 }, { LeftChild := some 6, RightChild := some 7, LeftNeighbor := some 5, RightNeighbor := some 3 }, { LeftChild := some 8, RightChild := some 9, LeftNeighbor := some 2, RightNeighbor := some 6 }, { BaseNeighbor := some 9, LeftNeighbor := some 7 }, { BaseNeighbor := some 3, RightNeighbor := some 6 }, { BaseNeighbor := some 2, LeftNeighbor := some 9 }, { BaseNeighbor := some 6, RightNeighbor := some 8 }], nextTriNodeIdx := 8 } }

/-- Reachable state 32 of the capacity-8 split model. -/
def C1S32 : SplitState :=
  { baseLeft := { LeftChild := some 4, RightChild := some 5, BaseNeighbor := some 1 }, baseRight := { LeftChild := some 2, RightChild := some 3, BaseNeighbor := some 0 }, pool := { pool := [{ LeftChild := some 8, RightChild := some 9, LeftNeighbor := some 3, RightNeighbor := some 6 }, { LeftNeighbor := some 4, RightNeighbor := some 8 }, { LeftNeighbor := some 7, RightNeighbor := some 3 }, { LeftChild := some 6, RightChild := some 7, LeftNeighbor := some 2, RightNeighbor := some 4 }, { BaseNeighbor := some 9, LeftNeighbor := some 7 }, { BaseNeighbor := some 4, RightNeighbor := some 6 }, { BaseNeighbor := some 3, LeftNeighbor := some 9 }, { BaseNeighbor := some 6, RightNeighbor := some 8 }], nextTriNodeIdx := 8 } }

/-- Reachable state 33 of the capacity-8 split model. -/
def C1S33 : SplitState :=
  { baseLeft := { LeftChild := some 4, RightChild := some 5, BaseNeighbor := some 1 }, baseRight := { LeftChild := some 2, RightChild := some 3, BaseNeighbor := some 0 }, pool := { pool := [{ LeftNeighbor := some 9, RightNeighbor := some 6 }, { LeftChild := some 8, RightChild := some 9, LeftNeighbor := some 4, RightNeighbor := some 2 }, { LeftNeighbor := some 7, RightNeighbor := some 8 }, { LeftChild := some 6, RightChild := some 7, LeftNeighbor := some 2, RightNeighbor := some 4 }, { BaseNeighbor := some 2, LeftNeighbor := some 7 }, { BaseNeighbor := some 4, RightNeighbor := some 6 }, { BaseNeighbor := some 4, LeftNeighbor := some 9 }, { BaseNeighbor := some 2, RightNeighbor := some 8 }], nextTriNodeIdx := 8 } }

/-- Reachable state 34 of the capacity-8 split model. -/
def C1S34 : SplitState :=
  { baseLeft := { LeftChild := some 4, RightChild := some 5, BaseNeighbor := some 1 }, baseRight := { LeftChild := some 2, RightChild := some 3, BaseNeighbor := some 0 }, pool := { pool := [{ LeftNeighbor := some 3, RightNeighbor := some 6 }, { LeftNeighbor := some 9, RightNeighbor := some 2 }, { LeftChild := some 8, RightChild := some 9, LeftNeighbor := some 7, RightNeighbor := some 3 }, { LeftChild := some 6, RightChild := some 7, LeftNeighbor := some 2, RightNeighbor := some 4 }, { BaseNeighbor := some 2, LeftNeighbor := some 7 }, { BaseNeighbor := some 8, RightNeighbor := some 6 }, { BaseNeighbor := some 7, LeftNeighbor := some 9 }, { BaseNeighbor := some 3, RightNeighbor := some 8 }], nextTriNodeIdx := 8 } }

/-- Every state reachable from `ResetPatch 8` by sequences of `Patch.Split`. -/
def C1States : List SplitState :=
  [C1S0, C1S1, C1S2, C1S3, C1S4, C1S5, C1S6, C1S7, C1S8, C1S9, C1S10, C1S11, C1S12, C1S13, C1S14, C1S15, C1S16, C1S17, C1S18, C1S19, C1S20, C1S21, C1S22, C1S23, C1S24, C1S25, C1S26, C1S27, C1S28, C1S29, C1S30, C1S31, C1S32, C1S33, C1S34]
/-- The cross-linking asserted by the diamond-invariant claim: each child of
`i` has its opposite-edge neighbor slot pointing at the corresponding child of
the base neighbor `b` (left child's `RightNeighbor` at `b`'s right child,
right child's `LeftNeighbor` at `b`'s left child). -/
def CrossLinked (s : SplitState) (i b : Nat) : Prop :=
  ((s.node i).LeftChild.map fun il => (s.node il).RightNeighbor) =
      some ((s.node b).RightChild) ∧
  ((s.node i).RightChild.map fun ir => (s.node ir).LeftNeighbor) =
      some ((s.node b).LeftChild)

instance (s : SplitState) (i b : Nat) : Decidable (CrossLinked s i b) :=
  inferInstanceAs (Decidable (_ ∧ _))

/-- Model of `int2`: a two-component integer vector. -/
structure int2 where
  x : Int
  y : Int
deriving DecidableEq, Repr

/-- Model of `float3` as used for the three stack-passed corner heights of
`RecursComputeVariance` (modelled with exact rationals). -/
structure float3 where
  x : ℚ
  y : ℚ
  z : ℚ
deriving DecidableEq, Repr

/-- Model of `std::max` on floats (modelled on ℚ), written by explicit comparison so
that concrete instances evaluate inside proofs. -/
def fmax (a b : ℚ) : ℚ := if a ≤ b then b else a

/-- Model of `std::min` on floats (modelled on ℚ). -/
def fmin (a b : ℚ) : ℚ := if a ≤ b then a else b

/-- Model of `math::fabs` (modelled on ℚ). -/
def fabs (a : ℚ) : ℚ := if a < 0 then -a else a

/-- Model of `std::max` on ints. -/
def imax (a b : Int) : Int := if a ≤ b then b else a

/-- Model of `abs` on ints. -/
def iabs (a : Int) : Int := if a < 0 then -a else a

/-- The C++ arithmetic right shift by one (`>> 1` on a signed int), i.e.
division by two rounding toward negative infinity. -/
def shr1 (a : Int) : Int :=
  Int.fdiv a 2

/-- Modelled from the spec: the fixed depth bound of the variance table
(`VARIANCE_DEPTH` is defined in `Patch.h`, which is not under `src/`; the spec
only requires a fixed depth, the engine's value is 12). -/
def VARIANCE_DEPTH : Nat := 12

/-- Modelled from the spec: the fixed patch edge length (`PATCH_SIZE` is
defined in `Patch.h`, not under `src/`; the spec only requires a fixed square
size, the engine's value is 128). -/
def PATCH_SIZE : Nat := 128

/-- The variance tables as `Patch::Patch` allocates them (`Patch.cpp` lines
130-131): `resize(1 << VARIANCE_DEPTH)` on an empty vector, i.e. exactly
`2 ^ VARIANCE_DEPTH` zero entries. -/
def Patch.varianceTableInit : List ℚ :=
  List.replicate (1 <<< VARIANCE_DEPTH) 0

/-- The hypotenuse midpoint `{(left.x + rght.x) >> 1, (left.y + rght.y) >> 1}`
(`Patch.cpp` lines 337, 358, 398, 626). -/
def Patch.midpoint (left rght : int2) : int2 :=
  ⟨shr1 (left.x + rght.x), shr1 (left.y + rght.y)⟩

/-- The local error of one triangle in `Patch::RecursComputeVariance`
(`Patch.cpp` lines 398-412): the actual height `mhgt` at the hypotenuse
midpoint minus the interpolated endpoint height, with the shoreline boost
(`* 1.5`, floored at `20`) when the heights of the left, right and midpoint
samples do not all share a sign. -/
def Patch.localVariance (hgts : float3) (mhgt : ℚ) : ℚ :=
  if hgts.x * hgts.y < 0 ∨ hgts.x * mhgt < 0 ∨ hgts.y * mhgt < 0 then
    fmax (fabs (mhgt - (hgts.x + hgts.y) * (1 / 2)) * (3 / 2)) 20
  else fabs (mhgt - (hgts.x + hgts.y) * (1 / 2))

/-- The tail of `Patch::RecursComputeVariance` (`Patch.cpp` lines 429-436):
clamp the variance to the strictly positive floor `0.001` and store it when
the heap index is within the table depth. -/
def Patch.storeVariance (tbl : List ℚ) (v0 : ℚ) (ws : List Nat) (node : Nat) :
    List ℚ × ℚ × List Nat :=
  if node < 2 ^ VARIANCE_DEPTH then
    (tbl.set node (fmax (1 / 1000) v0), fmax (1 / 1000) v0, ws ++ [node])
  else (tbl, fmax (1 / 1000) v0, ws)

/-- Model of `Patch::RecursComputeVariance` (`Patch.cpp` lines 382-437).  `h` models
`Patch::GetHeight`.  The result is the final table, the returned variance, and
the list of heap indices written (in write order), or `none` if the fuel ran
out. -/
def Patch.RecursComputeVariance (h : int2 → ℚ) :
    Nat → List ℚ → int2 → int2 → int2 → float3 → Nat → Option (List ℚ × ℚ × List Nat)
  | 0, _, _, _, _, _, _ => none
  | fuel + 1, tbl, left, rght, apex, hgts, node =>
    -- only calculate variance down to a 4x4 block
    if 4 ≤ iabs (left.x - rght.x) ∨ 4 ≤ iabs (left.y - rght.y) then
      match Patch.RecursComputeVariance h fuel tbl apex left (Patch.midpoint left rght)
          ⟨hgts.z, hgts.x, h (Patch.midpoint left rght)⟩ (2 * node) with
      | none => none
      | some (tbl1, child1Variance, w1) =>
        match Patch.RecursComputeVariance h fuel tbl1 rght apex (Patch.midpoint left rght)
            ⟨hgts.y, hgts.z, h (Patch.midpoint left rght)⟩ (2 * node + 1) with
        | none => none
        | some (tbl2, child2Variance, w2) =>
          -- the final variance is the max of our own and both children's
          some (Patch.storeVariance tbl2
            (fmax (fmax (Patch.localVariance hgts (h (Patch.midpoint left rght)))
              child1Variance) child2Variance) (w1 ++ w2) node)
    else
      some (Patch.storeVariance tbl
        (Patch.localVariance hgts (h (Patch.midpoint left rght))) [] node)

/-- The tessellation metric of `Patch::RecursTessellate` (`Patch.cpp` lines
315-327): for a heap index within the stored depth, the stored variance
clamped by `varianceMaxLimit`, multiplied by `PATCH_SIZE`, the footprint size
(largest axis extent) and `camDistLODFactor`; past the stored depth, the
default constant `10`. -/
def Patch.triVarianceAt (tbl : List ℚ) (varianceMaxLimit camDistLODFactor : ℚ)
    (left right : int2) (node : Nat) : ℚ :=
  if node < 2 ^ VARIANCE_DEPTH then
    fmin (tbl.getD node 0) varianceMaxLimit * (PATCH_SIZE : ℚ) *
      ((imax (imax (left.x - right.x) (right.x - left.x))
        (imax (left.y - right.y) (right.y - left.y))) : ℚ) * camDistLODFactor
  else 10

/-- The variance-table cells `Patch::RecursTessellate` reads at one node: the
single guarded read of `currentVariance[node]` (`Patch.cpp` line 326). -/
def Patch.varReadsAt (node : Nat) : List Nat :=
  if node < 2 ^ VARIANCE_DEPTH then [node] else []

/-- Model of `Patch::RecursTessellate` (`Patch.cpp` lines 308-342).  The result is the
final split state together with the list of variance-table indices read, or
`none` if the fuel ran out. -/
def Patch.RecursTessellate (tbl : List ℚ) (varianceMaxLimit camDistLODFactor : ℚ) :
    Nat → SplitState → Nat → int2 → int2 → int2 → Nat → Option (SplitState × List Nat)
  | 0, _, _, _, _, _, _ => none
  | fuel + 1, s, tri, left, right, apex, node =>
    -- bail if we can not tessellate further in at least one dimension
    if iabs (left.x - right.x) ≤ 1 ∧ iabs (left.y - right.y) ≤ 1 then some (s, [])
    -- stop tessellation when the metric is under the threshold
    else if Patch.triVarianceAt tbl varianceMaxLimit camDistLODFactor left right node ≤ 1 then
      some (s, Patch.varReadsAt node)
    else
      match Patch.Split fuel s tri with
      | none => none
      | some (s, _) =>
        if (s.node tri).IsBranch then
          -- triangle was split, also try to split its children
          match (s.node tri).LeftChild, (s.node tri).RightChild with
          | some lc, some rc =>
            match Patch.RecursTessellate tbl varianceMaxLimit camDistLODFactor
                fuel s lc apex left (Patch.midpoint left right) (2 * node) with
            | none => none
            | some (s, r1) =>
              match Patch.RecursTessellate tbl varianceMaxLimit camDistLODFactor
                  fuel s rc right apex (Patch.midpoint left right) (2 * node + 1) with
              | none => none
              | some (s, r2) => some (s, Patch.varReadsAt node ++ r1 ++ r2)
          | _, _ => some (s, Patch.varReadsAt node)  -- a branch carries both children
        else some (s, Patch.varReadsAt node)

/-- The camera-distance LOD factor of `Patch::Tessellate` (`Patch.cpp` lines
493-496): scale the distance by `300 / viewRadius`, floor at one, invert. -/
def Patch.camDistLODFactorOf (camDist viewRadius : ℚ) : ℚ :=
  1 / fmax 1 (camDist * (300 / viewRadius))

/-- The variance clamp of `Patch::Tessellate` (`Patch.cpp` line 502):
`viewRadius * 0.35`. -/
def Patch.varianceMaxLimitOf (viewRadius : ℚ) : ℚ :=
  viewRadius * (35 / 100)

/-- Model of `Patch::Tessellate` (`Patch.cpp` lines 483-525).  `camDist` stands for the
camera-to-midpoint distance `midPos.distance(camPos)` (an external float
computation involving a square root, passed in as a parameter).  Returns the
final state and the `!OutOfNodes` result. -/
def Patch.Tessellate (varianceLeft varianceRight : List ℚ) (camDist viewRadius : ℚ)
    (coors : int2) (fuel : Nat) (s : SplitState) : Option (SplitState × Bool) :=
  match Patch.RecursTessellate varianceLeft (Patch.varianceMaxLimitOf viewRadius)
      (Patch.camDistLODFactorOf camDist viewRadius) fuel s 0
      ⟨coors.x, coors.y + (PATCH_SIZE : Int)⟩ ⟨coors.x + (PATCH_SIZE : Int), coors.y⟩
      ⟨coors.x, coors.y⟩ 1 with
  | none => none
  | some (s, _) =>
    match Patch.RecursTessellate varianceRight (Patch.varianceMaxLimitOf viewRadius)
        (Patch.camDistLODFactorOf camDist viewRadius) fuel s 1
        ⟨coors.x + (PATCH_SIZE : Int), coors.y⟩ ⟨coors.x, coors.y + (PATCH_SIZE : Int)⟩
        ⟨coors.x + (PATCH_SIZE : Int), coors.y + (PATCH_SIZE : Int)⟩ 1 with
    | none => none
    | some (s, _) => some (s, !s.pool.OutOfNodes)

/-- Model of `Patch::RecursRender` (`Patch.cpp` lines 349-362): enumerate the leaves of
a subtree; each leaf contributes its footprint corners in the push order of
the C++ (`apex`, `left`, `right`). -/
def Patch.RecursRender (s : SplitState) :
    Nat → Nat → int2 → int2 → int2 → Option (List (int2 × int2 × int2))
  | 0, _, _, _, _ => none
  | fuel + 1, tri, left, right, apex =>
    if (s.node tri).IsLeaf then some [(apex, left, right)]
    else
      match (s.node tri).LeftChild, (s.node tri).RightChild with
      | some lc, some rc =>
        match Patch.RecursRender s fuel lc apex left (Patch.midpoint left right) with
        | none => none
        | some l1 =>
          match Patch.RecursRender s fuel rc right apex (Patch.midpoint left right) with
          | none => none
          | some l2 => some (l1 ++ l2)
      | _, _ => some []  -- a branch always carries both children
  
/-- Model of `Patch::GenerateIndices` (`Patch.cpp` lines 365-370): the leaves of both
base triangles with their footprints. -/
def Patch.GenerateIndices (fuel : Nat) (s : SplitState) :
    Option (List (int2 × int2 × int2)) :=
  match Patch.RecursRender s fuel 0 ⟨0, (PATCH_SIZE : Int)⟩ ⟨(PATCH_SIZE : Int), 0⟩ ⟨0, 0⟩ with
  | none => none
  | some l1 =>
    match Patch.RecursRender s fuel 1 ⟨(PATCH_SIZE : Int), 0⟩ ⟨0, (PATCH_SIZE : Int)⟩
        ⟨(PATCH_SIZE : Int), (PATCH_SIZE : Int)⟩ with
    | none => none
    | some l2 => some (l1 ++ l2)

/-- Model of `Patch::RecursBorderRender` (`Patch.cpp` lines 576-644).  Each visited leaf
pushes six skirt vertices (two triangles hanging down to a fixed elevation);
the emitted record is the pair of ground corners of that skirt quad, which at
even depths is `(left, rght)` (vertices `v2`, `v3` of the C++), at odd depths
`(apex, left)` (`v1`, `v2`) for a left child and `(rght, apex)` (`v3`, `v1`)
otherwise, exactly the vertices the C++ passes to `AddVertexQC`. -/
def Patch.RecursBorderRender (s : SplitState) :
    Nat → Nat → int2 → int2 → int2 → Nat → Bool → Option (List (int2 × int2))
  | 0, _, _, _, _, _, _ => none
  | fuel + 1, tri, left, rght, apex, depth, leftChild =>
    if (s.node tri).IsLeaf then
      if depth % 2 = 0 then some [(left, rght)]
      else if leftChild then some [(apex, left)]
      else some [(rght, apex)]
    else
      match (s.node tri).LeftChild, (s.node tri).RightChild with
      | some lc, some rc =>
        if depth % 2 = 0 then
          -- at even depths both children lie on the patch edge
          match Patch.RecursBorderRender s fuel lc apex left (Patch.midpoint left rght)
              (depth + 1) (!leftChild) with
          | none => none
          | some l1 =>
            match Patch.RecursBorderRender s fuel rc rght apex (Patch.midpoint left rght)
                (depth + 1) leftChild with
            | none => none
            | some l2 => some (l1 ++ l2)
        else if leftChild then
          Patch.RecursBorderRender s fuel lc apex left (Patch.midpoint left rght) (depth + 1) true
        else
          Patch.RecursBorderRender s fuel rc rght apex (Patch.midpoint left rght) (depth + 1) true
      | _, _ => some []  -- a branch always carries both children

/-- Model of `Patch::GenerateBorderIndices` (`Patch.cpp` lines 646-659): one border walk
per absent root neighbor link, in the order left, right, bottom, top. -/
def Patch.GenerateBorderIndices (fuel : Nat) (s : SplitState) :
    Option (List (int2 × int2)) :=
  let ps : Int := (PATCH_SIZE : Int)
  let walk : Option Nat → Nat → int2 → int2 → int2 → Bool →
      Option (List (int2 × int2)) := fun guard tri l r a lc =>
    match guard with
    | none => Patch.RecursBorderRender s fuel tri l r a 1 lc
    | some _ => some []
  match walk (s.node 0).LeftNeighbor 0 ⟨0, ps⟩ ⟨ps, 0⟩ ⟨0, 0⟩ true with
  | none => none
  | some a1 =>
    match walk (s.node 0).RightNeighbor 0 ⟨0, ps⟩ ⟨ps, 0⟩ ⟨0, 0⟩ false with
    | none => none
    | some a2 =>
      match walk (s.node 1).RightNeighbor 1 ⟨ps, 0⟩ ⟨0, ps⟩ ⟨ps, ps⟩ false with
      | none => none
      | some a3 =>
        match walk (s.node 1).LeftNeighbor 1 ⟨ps, 0⟩ ⟨0, ps⟩ ⟨ps, ps⟩ true with
        | none => none
        | some a4 => some (a1 ++ a2 ++ a3 ++ a4)

/-- Normalize a segment to an unordered endpoint pair (smaller endpoint first,
lexicographically). -/
def normPair (u v : int2) : int2 × int2 :=
  if u.x < v.x ∨ (u.x = v.x ∧ u.y ≤ v.y) then (u, v) else (v, u)

/-- The three footprint edges of a leaf triangle `(apex, left, right)`,
normalized. -/
def leafEdges : int2 × int2 × int2 → List (int2 × int2)
  | (a, l, r) => [normPair a l, normPair a r, normPair l r]

/-- Is `p` on the border line `x = c` (when `isX`) or `y = c` (otherwise)? -/
def onLine (isX : Bool) (c : Int) (p : int2) : Bool :=
  if isX then decide (p.x = c) else decide (p.y = c)

/-- The claim's "boundary leaves along that edge", as edges: every leaf edge
both of whose endpoints lie on the given border line. -/
def boundaryEdges (leaves : List (int2 × int2 × int2)) (isX : Bool) (c : Int) :
    List (int2 × int2) :=
  ((leaves.map leafEdges).flatten).filter fun e => onLine isX c e.1 && onLine isX c e.2

/-- Set equality of two segment lists. -/
def segSetEq (A B : List (int2 × int2)) : Bool :=
  (A.all fun e => B.any fun f => decide (f = e)) &&
  (B.all fun e => A.any fun f => decide (f = e))

/-- For each of the four border walks of `GenerateBorderIndices`: the skirt
quads it emits are exactly the leaf edges lying on the corresponding map edge
(`x = 0`, `y = 0`, `y = PATCH_SIZE`, `x = PATCH_SIZE`). -/
def borderExact (s : SplitState) : Bool :=
  let ps : Int := (PATCH_SIZE : Int)
  match Patch.GenerateIndices 64 s with
  | none => false
  | some leaves =>
    let checkWalk : Nat → int2 → int2 → int2 → Bool → Bool → Int → Bool :=
      fun tri l r a lc isX c =>
        match Patch.RecursBorderRender s 64 tri l r a 1 lc with
        | none => false
        | some segs =>
          segSetEq (segs.map fun e => normPair e.1 e.2) (boundaryEdges leaves isX c)
    checkWalk 0 ⟨0, ps⟩ ⟨ps, 0⟩ ⟨0, 0⟩ true true 0 &&
    checkWalk 0 ⟨0, ps⟩ ⟨ps, 0⟩ ⟨0, 0⟩ false false 0 &&
    checkWalk 1 ⟨ps, 0⟩ ⟨0, ps⟩ ⟨ps, ps⟩ false false ps &&
    checkWalk 1 ⟨ps, 0⟩ ⟨0, ps⟩ ⟨ps, ps⟩ true true ps

/-- The per-thread pool capacity as the sizing claim words it: the naive even
split `total / numThreads`, floored at one-third of that naive even split,
rounded up to an even number (for refinement comparison with
`CTriNodePool.perThreadCapacity`). -/
def claimPerThreadCapacity (newPoolSize numThreads : Nat) : Nat :=
  let naive := newPoolSize / numThreads
  let s := max naive (naive / 3)
  s + (s &&& 1)

/-- A minimal patch state whose pool is exhausted (capacity zero): both roots
are mutual-base leaves and no slot is available. -/
def exhaustedPatch : SplitState :=
  { baseLeft := { BaseNeighbor := some 1 },
    baseRight := { BaseNeighbor := some 0 },
    pool := { pool := [], nextTriNodeIdx := 0 } }

theorem Patch.splitBase_mono (rec1 rec2 : SplitState → Nat → Option (SplitState × Bool))
    (hrec : ∀ s t x, rec1 s t = some x → rec2 s t = some x)
    (s' : SplitState) (t : Nat) (x : SplitState × Bool)
    (hx : Patch.SplitBase rec1 s' t = some x) :
    Patch.SplitBase rec2 s' t = some x := by
  unfold Patch.SplitBase at hx ⊢
  split at hx
  next b hB =>
    split at hx
    next hbr =>
      rw [if_pos hbr]
      exact hx
    next hbr =>
      rw [if_neg hbr]
      split at hx
      next hr => exact absurd hx (by simp)
      next s2 r2 hr =>
        rw [hrec _ _ _ hr]
        exact hx
  next hB =>
    exact hx

theorem Patch.splitFinish_mono (rec1 rec2 : SplitState → Nat → Option (SplitState × Bool))
    (hrec : ∀ s t x, rec1 s t = some x → rec2 s t = some x)
    (s : SplitState) (t : Nat) (x : SplitState × Bool)
    (hx : Patch.SplitFinish rec1 s t = some x) :
    Patch.SplitFinish rec2 s t = some x := by
  unfold Patch.SplitFinish at hx ⊢
  split at hx
  next lc rc p' hA =>
    exact hx
  next lk rk p' hA =>
    exact Patch.splitBase_mono rec1 rec2 hrec _ t x hx
  next hA hB hC =>
    exact absurd hx (by simp)

theorem Patch.splitGo_mono (rec1 rec2 : SplitState → Nat → Option (SplitState × Bool))
    (hrec : ∀ s t x, rec1 s t = some x → rec2 s t = some x)
    (s : SplitState) (t : Nat) (x : SplitState × Bool)
    (hx : Patch.SplitGo rec1 s t = some x) :
    Patch.SplitGo rec2 s t = some x := by
  unfold Patch.SplitGo at hx ⊢
  split at hx
  next hleaf =>
    rw [if_pos hleaf]
    split at hx
    next b hB =>
      split at hx
      next hcond =>
        rw [if_pos hcond]
        split at hx
        next hr => exact absurd hx (by simp)
        next s2 r2 hr =>
          rw [hrec _ _ _ hr]
          exact Patch.splitFinish_mono rec1 rec2 hrec _ t x hx
      next hcond =>
        rw [if_neg hcond]
        exact Patch.splitFinish_mono rec1 rec2 hrec _ t x hx
    next hB =>
      exact Patch.splitFinish_mono rec1 rec2 hrec _ t x hx
  next hleaf =>
    rw [if_neg hleaf]
    exact hx

theorem Patch.split_mono : ∀ {f g : Nat} {s : SplitState} {t : Nat} {x : SplitState × Bool},
    f ≤ g → Patch.Split f s t = some x → Patch.Split g s t = some x := by
  intro f
  induction f with
  | zero => intro g s t x _ hx; simp [Patch.Split] at hx
  | succ f ih =>
    intro g s t x hfg hx
    obtain ⟨g', rfl⟩ : ∃ g', g = g' + 1 := ⟨g - 1, by omega⟩
    exact Patch.splitGo_mono (Patch.Split f) (Patch.Split g')
      (fun s t x h => ih (by omega) h) s t x hx

theorem list_set_getD_self (L : List TriTreeNode) (n : Nat) :
    L.set n (L[n]?.getD default) = L := by
  induction L generalizing n with
  | nil => simp
  | cons a t ih =>
    cases n with
    | zero => simp
    | succ m => simp only [List.set, List.getElem?_cons_succ]; simp [ih]

theorem SplitState.updNode_pool_length (s : SplitState) (i : Nat)
    (f : TriTreeNode → TriTreeNode) :
    (s.updNode i f).pool.pool.length = s.pool.pool.length := by
  unfold SplitState.updNode
  split
  · rfl
  · split
    · rfl
    · simp

theorem SplitState.updNode_pool_next (s : SplitState) (i : Nat)
    (f : TriTreeNode → TriTreeNode) :
    (s.updNode i f).pool.nextTriNodeIdx = s.pool.nextTriNodeIdx := by
  unfold SplitState.updNode
  split
  · rfl
  · split <;> rfl

theorem SplitState.updNode_OutOfNodes (s : SplitState) (i : Nat)
    (f : TriTreeNode → TriTreeNode) :
    (s.updNode i f).pool.OutOfNodes = s.pool.OutOfNodes := by
  unfold CTriNodePool.OutOfNodes
  rw [SplitState.updNode_pool_length, SplitState.updNode_pool_next]

theorem SplitState.updNode_id (s : SplitState) (i : Nat)
    (f : TriTreeNode → TriTreeNode) (h : f (s.node i) = s.node i) :
    s.updNode i f = s := by
  unfold SplitState.node at h
  unfold SplitState.updNode
  cases i with
  | zero => simp at h; simp [h]
  | succ j =>
    cases j with
    | zero => simp at h; simp [h]
    | succ k =>
      simp [List.getD] at h
      simp [List.getD, h, list_set_getD_self]

theorem CTriNodePool.allocate_of_OutOfNodes {p : CTriNodePool} (h : p.OutOfNodes = true) :
    p.Allocate = (false, none, none, p) := by
  unfold CTriNodePool.Allocate
  rw [if_pos h]

theorem TriTreeNode.leaf_clear_children {n : TriTreeNode} (h : n.IsLeaf = true) :
    { n with LeftChild := (none : Option Nat), RightChild := (none : Option Nat) } = n := by
  unfold TriTreeNode.IsLeaf at h
  obtain ⟨a, b, c, d, e⟩ := n
  simp only [Bool.and_eq_true, decide_eq_true_eq] at h
  obtain ⟨h1, h2⟩ := h
  subst h1
  subst h2
  rfl

theorem Patch.splitFinish_exhausted
    {rec : SplitState → Nat → Option (SplitState × Bool)} {s : SplitState} {t : Nat}
    {s' : SplitState} {r : Bool} (hex : s.pool.OutOfNodes = true)
    (hleaf : (s.node t).IsLeaf = true)
    (hx : Patch.SplitFinish rec s t = some (s', r)) : s' = s := by
  unfold Patch.SplitFinish at hx
  rw [CTriNodePool.allocate_of_OutOfNodes hex] at hx
  simp only [Option.some.injEq, Prod.mk.injEq] at hx
  obtain ⟨hs, _⟩ := hx
  rw [← hs]
  exact SplitState.updNode_id s t _ (TriTreeNode.leaf_clear_children hleaf)

theorem Patch.split_exhausted : ∀ {f : Nat} {s : SplitState} {t : Nat} {s' : SplitState}
    {r : Bool}, s.pool.OutOfNodes = true → Patch.Split f s t = some (s', r) → s' = s := by
  intro f
  induction f with
  | zero => intro s t s' r _ hx; simp [Patch.Split] at hx
  | succ f ih =>
    intro s t s' r hex hx
    unfold Patch.Split Patch.SplitGo at hx
    split at hx
    next hleaf =>
      split at hx
      next b hB =>
        split at hx
        next hcond =>
          split at hx
          next hr => exact absurd hx (by simp)
          next s2 r2 hr =>
            have h2 : s2 = s := ih hex hr
            subst h2
            exact Patch.splitFinish_exhausted hex hleaf hx
        next hcond =>
          exact Patch.splitFinish_exhausted hex hleaf hx
      next hB =>
        exact Patch.splitFinish_exhausted hex hleaf hx
    next hleaf =>
      simp only [Option.some.injEq, Prod.mk.injEq] at hx
      exact hx.1.symm

theorem CTriNodePool.allocate_false {p : CTriNodePool} {lc rc : Option Nat}
    {p' : CTriNodePool} (h : p.Allocate = (false, lc, rc, p')) :
    p.OutOfNodes = true ∧ p' = p := by
  unfold CTriNodePool.Allocate at h
  split at h
  next hex =>
    simp only [Prod.mk.injEq] at h
    exact ⟨hex, h.2.2.2.symm⟩
  next hex =>
    simp at h

theorem Patch.split_failed : ∀ {f : Nat} {s : SplitState} {t : Nat} {s' : SplitState},
    Patch.Split f s t = some (s', false) → s'.pool.OutOfNodes = true := by
  have hFin : ∀ (rec : SplitState → Nat → Option (SplitState × Bool)) (s : SplitState)
      (t : Nat) (s' : SplitState),
      (∀ s1 t1 s1' , rec s1 t1 = some (s1', false) → s1'.pool.OutOfNodes = true) →
      Patch.SplitFinish rec s t = some (s', false) → s'.pool.OutOfNodes = true := by
    intro rec s t s' hrec hx
    unfold Patch.SplitFinish at hx
    split at hx
    next lc rc p' hA =>
      obtain ⟨hex, hp⟩ := CTriNodePool.allocate_false hA
      simp only [Option.some.injEq, Prod.mk.injEq] at hx
      rw [← hx.1, SplitState.updNode_OutOfNodes]
      rw [hp]
      exact hex
    next lk rk p' hA =>
      unfold Patch.SplitBase at hx
      split at hx
      next b hB =>
        split at hx
        next hbr => simp at hx
        next hbr =>
          split at hx
          next hr => exact absurd hx (by simp)
          next s2 r2 hr => simp at hx
      next hB => simp at hx
    next => exact absurd hx (by simp)
  intro f
  induction f with
  | zero => intro s t s' hx; simp [Patch.Split] at hx
  | succ f ih =>
    intro s t s' hx
    unfold Patch.Split Patch.SplitGo at hx
    split at hx
    next hleaf =>
      split at hx
      next b hB =>
        split at hx
        next hcond =>
          split at hx
          next hr => exact absurd hx (by simp)
          next s2 r2 hr => exact hFin _ _ _ _ (fun s1 t1 s1' h => ih h) hx
        next hcond => exact hFin _ _ _ _ (fun s1 t1 s1' h => ih h) hx
      next hB => exact hFin _ _ _ _ (fun s1 t1 s1' h => ih h) hx
    next hleaf => simp at hx

theorem Patch.recursTessellate_exhausted :
    ∀ {f : Nat} {tbl : List ℚ} {lim lod : ℚ} {s : SplitState} {tri : Nat}
    {left right apex : int2} {node : Nat} {s' : SplitState} {rd : List Nat},
    s.pool.OutOfNodes = true →
    Patch.RecursTessellate tbl lim lod f s tri left right apex node = some (s', rd) →
    s' = s := by
  intro f
  induction f with
  | zero => intro tbl lim lod s tri l r a node s' rd _ hx
            simp [Patch.RecursTessellate] at hx
  | succ f ih =>
    intro tbl lim lod s tri l r a node s' rd hex hx
    unfold Patch.RecursTessellate at hx
    split at hx
    next hsmall => simp only [Option.some.injEq, Prod.mk.injEq] at hx; exact hx.1.symm
    next hsmall =>
      split at hx
      next hvar => simp only [Option.some.injEq, Prod.mk.injEq] at hx; exact hx.1.symm
      next hvar =>
        split at hx
        next hsp => exact absurd hx (by simp)
        next s1 r1 hsp =>
          have h1 : s1 = s := Patch.split_exhausted hex hsp
          subst h1
          split at hx
          next hbr =>
            split at hx
            next lc rc hlc hrc =>
              split at hx
              next hr1 => exact absurd hx (by simp)
              next s2 rd2 hr1 =>
                have h2 : s2 = s1 := ih hex hr1
                subst h2
                split at hx
                next hr2 => exact absurd hx (by simp)
                next s3 rd3 hr2 =>
                  have h3 : s3 = s2 := ih hex hr2
                  subst h3
                  simp only [Option.some.injEq, Prod.mk.injEq] at hx
                  exact hx.1.symm
            next hlr => simp only [Option.some.injEq, Prod.mk.injEq] at hx; exact hx.1.symm
          next hbr =>
            simp only [Option.some.injEq, Prod.mk.injEq] at hx
            exact hx.1.symm

theorem mem_of_memS {s : SplitState} {l : List SplitState} (h : memS s l = true) : s ∈ l := by
  unfold memS at h
  simp only [List.any_eq_true, decide_eq_true_eq] at h
  obtain ⟨x, hx, he⟩ := h
  exact he ▸ hx

set_option maxRecDepth 200000 in
/-- The capacity-8 state list is closed under `Patch.Split` at fuel 8 from any
live node id. -/
theorem c1states_closed : (C1States.all fun s =>
    (List.range (2 + s.pool.nextTriNodeIdx)).all fun i =>
      match Patch.Split 8 s i with
      | some (s', _) => memS s' C1States
      | none => false) = true := by decide

set_option maxRecDepth 200000 in
theorem c1states_init : memS (Patch.ResetPatch 8) C1States = true := by decide

/-- Every state reachable by split sequences on the capacity-8 patch is one of
the 35 listed states. -/
theorem reach_mem {s : SplitState} (h : Patch.ReachSplit 8 s) : memS s C1States = true := by
  induction h with
  | init => exact c1states_init
  | @step s0 s1 i fuel r hre hi hsp ih =>
    have hclosed := List.all_eq_true.mp c1states_closed s0 (mem_of_memS ih)
    have hstep := List.all_eq_true.mp hclosed i (List.mem_range.mpr hi)
    rcases h8 : Patch.Split 8 s0 i with _ | ⟨s2, r2⟩
    · rw [h8] at hstep; exact absurd hstep (by simp)
    · rw [h8] at hstep
      rcases le_total fuel 8 with hle | hle
      · have hm := Patch.split_mono hle hsp
        rw [hm] at h8
        simp only [Option.some.injEq, Prod.mk.injEq] at h8
        rw [h8.1]
        exact hstep
      · have hm := Patch.split_mono hle h8
        rw [hsp] at hm
        simp only [Option.some.injEq, Prod.mk.injEq] at hm
        rw [hm.1]
        exact hstep

set_option maxRecDepth 200000 in
/-- On every listed state the amended diamond property holds: a branch's base
neighbor is a branch. -/
theorem c1states_prop : (C1States.all fun s =>
    decide (s.pool.pool.length = 8) &&
    ((List.range 10).all fun i =>
      !(s.node i).IsBranch ||
      (match (s.node i).BaseNeighbor with
       | some b => (s.node b).IsBranch
       | none => true))) = true := by decide

theorem node_default_of_ge {s : SplitState} (hlen : s.pool.pool.length = 8)
    {i : Nat} (hi : 10 ≤ i) : s.node i = default := by
  unfold SplitState.node
  rw [if_neg (by omega), if_neg (by omega)]
  exact List.getD_eq_default _ _ (by omega)

set_option maxRecDepth 200000 in
/-- C1 (amended): on a freshly reset capacity-8 patch, after any sequence of
`Patch::Split` calls on live nodes, every branch node with a non-null
`BaseNeighbor` has a base neighbor that is also a branch (or its
`BaseNeighbor` is null).  The cross-linking clause of the original claim is
refuted by `c1_diamond_counterexample`. -/
theorem c1_diamond_invariant {s : SplitState} (hre : Patch.ReachSplit 8 s) (i b : Nat)
    (hbr : (s.node i).IsBranch = true) (hb : (s.node i).BaseNeighbor = some b) :
    (s.node b).IsBranch = true := by
  have hmem := mem_of_memS (reach_mem hre)
  have hprop := List.all_eq_true.mp c1states_prop s hmem
  simp only [Bool.and_eq_true, decide_eq_true_eq] at hprop
  obtain ⟨hlen, hall⟩ := hprop
  by_cases hi : i < 10
  · have hfact := List.all_eq_true.mp hall i (List.mem_range.mpr hi)
    simp only [hbr, Bool.not_true, Bool.false_or] at hfact
    rw [hb] at hfact
    exact hfact
  · rw [node_default_of_ge hlen (by omega)] at hbr
    exact absurd hbr (by decide)

set_option maxRecDepth 200000 in
/-- C1 counterexample to the claim as stated: after the reachable split
sequence `Split baseLeft; Split (baseLeft's left child)` on a freshly reset
capacity-8 patch, node 1 (`baseRight`) is a branch with base neighbor 0
(`baseLeft`), but its children are no longer cross-linked to node 0's
children: the second split re-pointed node 5's `LeftNeighbor` from node 2 to
the new grandchild 7. -/
theorem c1_diamond_counterexample :
    Patch.ReachSplit 8 C1S3 ∧
    ¬ (∀ i b : Nat, (C1S3.node i).IsBranch = true → (C1S3.node i).BaseNeighbor = some b →
        (C1S3.node b).IsBranch = true ∧ CrossLinked C1S3 i b) := by
  constructor
  · exact Patch.ReachSplit.step
      (Patch.ReachSplit.step Patch.ReachSplit.init (by decide)
        (by decide : Patch.Split 8 (Patch.ResetPatch 8) 0 = some (C1S1, true)))
      (by decide)
      (by decide : Patch.Split 8 C1S1 2 = some (C1S3, true))
  · intro h
    exact absurd (h 1 0 (by decide) (by decide)).2 (by decide)

set_option maxRecDepth 200000 in
/-- Witness for `c1_diamond_invariant` at the state after one root split. -/
theorem c1_diamond_invariant_witness :
    (C1S1.node 0).IsBranch = true ∧ (C1S1.node 0).BaseNeighbor = some 1 ∧
      (C1S1.node 1).IsBranch = true :=
  ⟨by decide, by decide,
    c1_diamond_invariant
      (Patch.ReachSplit.step Patch.ReachSplit.init (by decide)
        (by decide : Patch.Split 8 (Patch.ResetPatch 8) 0 = some (C1S1, true)))
      0 1 (by decide) (by decide)⟩

theorem Patch.tessellate_exhausted {vl vr : List ℚ} {camDist viewRadius : ℚ}
    {coors : int2} {f : Nat} {s s' : SplitState} {ret : Bool}
    (hex : s.pool.OutOfNodes = true)
    (hx : Patch.Tessellate vl vr camDist viewRadius coors f s = some (s', ret)) :
    s' = s ∧ ret = false := by
  unfold Patch.Tessellate at hx
  split at hx
  next hr1 => exact absurd hx (by simp)
  next s1 rd1 hr1 =>
    have h1 : s1 = s := Patch.recursTessellate_exhausted hex hr1
    split at hx
    next hr2 => exact absurd hx (by simp)
    next s2 rd2 hr2 =>
      have h2 : s2 = s1 :=
        Patch.recursTessellate_exhausted (show s1.pool.OutOfNodes = true by rw [h1]; exact hex) hr2
      simp only [Option.some.injEq, Prod.mk.injEq] at hx
      obtain ⟨hs, hret⟩ := hx
      constructor
      · rw [← hs, h2, h1]
      · rw [← hret, h2, h1]
        simp [hex]

/-- C2: if any recursive `Split` fails from arena exhaustion during a
tessellation pass, the rest of the pass is inert: a `false` return of `Split`
means the pool is out of nodes; once the pool is out of nodes, every further
`Split`, `RecursTessellate` and `Tessellate` leaves the patch state exactly as
it is (so no further node is split anywhere in the patch and the partial
tessellation achieved so far is kept), and `Tessellate` reports failure. -/
theorem c2_exhaustion_aborts_pass :
    (∀ (f : Nat) (s : SplitState) (t : Nat) (s' : SplitState),
        Patch.Split f s t = some (s', false) → s'.pool.OutOfNodes = true) ∧
    (∀ (f : Nat) (s : SplitState) (t : Nat) (s' : SplitState) (r : Bool),
        s.pool.OutOfNodes = true → Patch.Split f s t = some (s', r) → s' = s) ∧
    (∀ (tbl : List ℚ) (lim lod : ℚ) (f : Nat) (s : SplitState) (tri : Nat)
        (left right apex : int2) (node : Nat) (s' : SplitState) (rd : List Nat),
        s.pool.OutOfNodes = true →
        Patch.RecursTessellate tbl lim lod f s tri left right apex node = some (s', rd) →
        s' = s) ∧
    (∀ (vl vr : List ℚ) (camDist viewRadius : ℚ) (coors : int2) (f : Nat)
        (s s' : SplitState) (ret : Bool),
        s.pool.OutOfNodes = true →
        Patch.Tessellate vl vr camDist viewRadius coors f s = some (s', ret) →
        s' = s ∧ ret = false) :=
  ⟨fun _ _ _ _ h => Patch.split_failed h,
   fun _ _ _ _ _ hex h => Patch.split_exhausted hex h,
   fun _ _ _ _ _ _ _ _ _ _ _ _ hex h => Patch.recursTessellate_exhausted hex h,
   fun _ _ _ _ _ _ _ _ _ hex h => Patch.tessellate_exhausted hex h⟩

/-- Witness for `c2_exhaustion_aborts_pass` on the capacity-zero patch. -/
theorem c2_exhaustion_aborts_pass_witness :
    exhaustedPatch.pool.OutOfNodes = true ∧ exhaustedPatch = exhaustedPatch ∧
      exhaustedPatch = exhaustedPatch ∧ (exhaustedPatch = exhaustedPatch ∧ false = false) :=
  ⟨c2_exhaustion_aborts_pass.1 1 exhaustedPatch 0 exhaustedPatch (by decide),
   c2_exhaustion_aborts_pass.2.1 1 exhaustedPatch 0 exhaustedPatch false (by decide) (by decide),
   c2_exhaustion_aborts_pass.2.2.1 [] 1 1 1 exhaustedPatch 0 ⟨0, 0⟩ ⟨1, 0⟩ ⟨0, 0⟩ 1
     exhaustedPatch [] (by decide) (by decide),
   c2_exhaustion_aborts_pass.2.2.2 [] [] 1 1 ⟨0, 0⟩ 1 exhaustedPatch exhaustedPatch false
     (by decide) (by with_unfolding_all decide)⟩

/-- C3: `CTriNodePool::Allocate` either fails, with both output pointers null,
nothing allocated and the watermark unchanged, exactly when remaining capacity
is below two, or succeeds with two fresh zero-initialized consecutive handles,
advancing the watermark by exactly two; the watermark stays even and never
exceeds the capacity, and one-child allocation is impossible. -/
theorem c3_allocate_contract (p : CTriNodePool)
    (heven : p.nextTriNodeIdx % 2 = 0) (hle : p.nextTriNodeIdx ≤ p.pool.length)
    (hfresh : ∀ k, p.nextTriNodeIdx ≤ k → p.pool.getD k default = default) :
    (p.OutOfNodes = true ↔ p.pool.length - p.nextTriNodeIdx < 2) ∧
    (p.OutOfNodes = true → p.Allocate = (false, none, none, p)) ∧
    (p.OutOfNodes = false →
      p.Allocate = (true, some p.nextTriNodeIdx, some (p.nextTriNodeIdx + 1),
        { p with nextTriNodeIdx := p.nextTriNodeIdx + 2 }) ∧
      p.pool.getD p.nextTriNodeIdx default = default ∧
      p.pool.getD (p.nextTriNodeIdx + 1) default = default ∧
      p.nextTriNodeIdx + 2 ≤ p.pool.length ∧ (p.nextTriNodeIdx + 2) % 2 = 0) := by
  refine ⟨?_, ?_, ?_⟩
  · unfold CTriNodePool.OutOfNodes
    simp
  · exact CTriNodePool.allocate_of_OutOfNodes
  · intro hex
    have hcap : p.nextTriNodeIdx + 2 ≤ p.pool.length := by
      unfold CTriNodePool.OutOfNodes at hex
      simp at hex
      omega
    refine ⟨?_, hfresh _ le_rfl, hfresh _ (by omega), hcap, by omega⟩
    unfold CTriNodePool.Allocate
    rw [if_neg (by simp [hex])]

/-- Witness for `c3_allocate_contract` on a fresh four-slot pool. -/
theorem c3_allocate_contract_witness :
    ((⟨List.replicate 4 default, 0⟩ : CTriNodePool).nextTriNodeIdx % 2 = 0) ∧
    (⟨List.replicate 4 default, 0⟩ : CTriNodePool).Allocate =
      (true, some 0, some 1, ⟨List.replicate 4 default, 2⟩) :=
  ⟨by decide,
   ((c3_allocate_contract ⟨List.replicate 4 default, 0⟩ (by decide) (by decide)
      (fun k _ => by
        rcases k with _ | _ | _ | _ | k <;> rfl)).2.2 (by decide)).1⟩

theorem le_fmax_left (a b : ℚ) : a ≤ fmax a b := by
  unfold fmax
  split
  · assumption
  · exact le_rfl

theorem le_fmax_right (a b : ℚ) : b ≤ fmax a b := by
  unfold fmax
  split
  · exact le_rfl
  · linarith

theorem list_getD_set_self (l : List ℚ) (n : Nat) (a : ℚ) (h : n < l.length) :
    (l.set n a).getD n 0 = a := by
  simp [List.getD, List.getElem?_set_self, h]

theorem Patch.recursComputeVariance_length {h : int2 → ℚ} :
    ∀ {f : Nat} {tbl : List ℚ} {left rght apex : int2} {hgts : float3} {node : Nat}
    {out : List ℚ × ℚ × List Nat},
    Patch.RecursComputeVariance h f tbl left rght apex hgts node = some out →
    out.1.length = tbl.length := by
  intro f
  induction f with
  | zero => intro tbl l r a hg node out hx; simp [Patch.RecursComputeVariance] at hx
  | succ f ih =>
    intro tbl l r a hg node out hx
    unfold Patch.RecursComputeVariance at hx
    split at hx
    · split at hx
      next h1 => exact absurd hx (by simp)
      next t1 v1 w1 h1 =>
        split at hx
        next h2 => exact absurd hx (by simp)
        next t2 v2 w2 h2 =>
          simp only [Option.some.injEq] at hx
          rw [← hx]
          unfold Patch.storeVariance
          split
          · simpa using (ih h2).trans (ih h1)
          · simpa using (ih h2).trans (ih h1)
    · simp only [Option.some.injEq] at hx
      rw [← hx]
      unfold Patch.storeVariance
      split
      · simp
      · simp

/-- C4: every value `RecursComputeVariance` computes is at least the `0.001`
floor (hence strictly positive); the value stored at a heap index within the
depth bound is exactly the returned value; and whenever the recursion
descends, the returned (hence stored) value is greater than or equal to the
value computed for each of the two children. -/
theorem c4_monotonic_variance {h : int2 → ℚ} {f : Nat} {tbl : List ℚ}
    {left rght apex : int2} {hgts : float3} {node : Nat} {tbl' : List ℚ} {v : ℚ}
    {ws : List Nat}
    (hx : Patch.RecursComputeVariance h (f + 1) tbl left rght apex hgts node =
      some (tbl', v, ws)) :
    (0 < v ∧ 1 / 1000 ≤ v) ∧
    (node < 2 ^ VARIANCE_DEPTH → node < tbl.length → tbl'.getD node 0 = v) ∧
    (4 ≤ iabs (left.x - rght.x) ∨ 4 ≤ iabs (left.y - rght.y) →
      ∃ tbl1 v1 w1 tbl2 v2 w2,
        Patch.RecursComputeVariance h f tbl apex left (Patch.midpoint left rght)
          ⟨hgts.z, hgts.x, h (Patch.midpoint left rght)⟩ (2 * node) = some (tbl1, v1, w1) ∧
        Patch.RecursComputeVariance h f tbl1 rght apex (Patch.midpoint left rght)
          ⟨hgts.y, hgts.z, h (Patch.midpoint left rght)⟩ (2 * node + 1) =
            some (tbl2, v2, w2) ∧
        v1 ≤ v ∧ v2 ≤ v) := by
  unfold Patch.RecursComputeVariance at hx
  split at hx
  next hguard =>
    split at hx
    next h1 => exact absurd hx (by simp)
    next t1 v1 w1 h1 =>
      split at hx
      next h2 => exact absurd hx (by simp)
      next t2 v2 w2 h2 =>
        have hlen1 : t1.length = tbl.length := Patch.recursComputeVariance_length h1
        have hlen2 : t2.length = t1.length := Patch.recursComputeVariance_length h2
        simp only [Option.some.injEq] at hx
        unfold Patch.storeVariance at hx
        split at hx
        next hnode =>
          simp only [Prod.mk.injEq] at hx
          obtain ⟨ht, hv, hw⟩ := hx
          refine ⟨⟨?_, ?_⟩, ?_, ?_⟩
          · calc (0 : ℚ) < 1 / 1000 := by norm_num
              _ ≤ v := hv ▸ le_fmax_left _ _
          · exact hv ▸ le_fmax_left _ _
          · intro _ hblen
            rw [← ht, list_getD_set_self _ _ _ (by omega), hv]
          · intro _
            refine ⟨t1, v1, w1, t2, v2, w2, h1, h2, ?_, ?_⟩
            · calc v1 ≤ fmax (Patch.localVariance hgts (h (Patch.midpoint left rght))) v1 :=
                    le_fmax_right _ _
                _ ≤ fmax (fmax (Patch.localVariance hgts (h (Patch.midpoint left rght))) v1)
                    v2 := le_fmax_left _ _
                _ ≤ v := hv ▸ le_fmax_right _ _
            · calc v2 ≤ fmax (fmax (Patch.localVariance hgts (h (Patch.midpoint left rght))) v1)
                    v2 := le_fmax_right _ _
                _ ≤ v := hv ▸ le_fmax_right _ _
        next hnode =>
          simp only [Prod.mk.injEq] at hx
          obtain ⟨ht, hv, hw⟩ := hx
          refine ⟨⟨?_, ?_⟩, ?_, ?_⟩
          · calc (0 : ℚ) < 1 / 1000 := by norm_num
              _ ≤ v := hv ▸ le_fmax_left _ _
          · exact hv ▸ le_fmax_left _ _
          · intro hn _
            exact absurd hn hnode
          · intro _
            refine ⟨t1, v1, w1, t2, v2, w2, h1, h2, ?_, ?_⟩
            · calc v1 ≤ fmax (Patch.localVariance hgts (h (Patch.midpoint left rght))) v1 :=
                    le_fmax_right _ _
                _ ≤ fmax (fmax (Patch.localVariance hgts (h (Patch.midpoint left rght))) v1)
                    v2 := le_fmax_left _ _
                _ ≤ v := hv ▸ le_fmax_right _ _
            · calc v2 ≤ fmax (fmax (Patch.localVariance hgts (h (Patch.midpoint left rght))) v1)
                    v2 := le_fmax_right _ _
                _ ≤ v := hv ▸ le_fmax_right _ _
  next hguard =>
    simp only [Option.some.injEq] at hx
    unfold Patch.storeVariance at hx
    split at hx
    next hnode =>
      simp only [Prod.mk.injEq] at hx
      obtain ⟨ht, hv, hw⟩ := hx
      refine ⟨⟨?_, ?_⟩, ?_, ?_⟩
      · calc (0 : ℚ) < 1 / 1000 := by norm_num
          _ ≤ v := hv ▸ le_fmax_left _ _
      · exact hv ▸ le_fmax_left _ _
      · intro _ hblen
        rw [← ht, list_getD_set_self _ _ _ (by omega), hv]
      · intro hg
        exact absurd hg hguard
    next hnode =>
      simp only [Prod.mk.injEq] at hx
      obtain ⟨ht, hv, hw⟩ := hx
      refine ⟨⟨?_, ?_⟩, ?_, ?_⟩
      · calc (0 : ℚ) < 1 / 1000 := by norm_num
          _ ≤ v := hv ▸ le_fmax_left _ _
      · exact hv ▸ le_fmax_left _ _
      · intro hn _
        exact absurd hn hnode
      · intro hg
        exact absurd hg hguard

set_option maxRecDepth 100000 in
/-- Witness for `c4_monotonic_variance`: a flat 4-cell footprint at heap
index 1 on a two-entry table. -/
theorem c4_monotonic_variance_witness :
    0 < (1 / 1000 : ℚ) ∧ ([(0 : ℚ), 1 / 1000]).getD 1 0 = (1 / 1000 : ℚ) :=
  ⟨(@c4_monotonic_variance (fun _ => 0) 3 [0, 0] ⟨0, 4⟩ ⟨4, 0⟩ ⟨0, 0⟩ ⟨0, 0, 0⟩ 1
      [0, 1 / 1000] (1 / 1000) [4, 5, 2, 6, 7, 3, 1]
      (by with_unfolding_all decide)).1.1,
   (@c4_monotonic_variance (fun _ => 0) 3 [0, 0] ⟨0, 4⟩ ⟨4, 0⟩ ⟨0, 0⟩ ⟨0, 0, 0⟩ 1
      [0, 1 / 1000] (1 / 1000) [4, 5, 2, 6, 7, 3, 1]
      (by with_unfolding_all decide)).2.1 (by decide) (by decide)⟩

/-- C8: in `RecursComputeVariance` the local error is the absolute difference
between the midpoint height and the interpolated hypotenuse-endpoint height;
when the sign of height differs among the left, right and midpoint samples it
is multiplied by 1.5 and floored at 20, and this boosted value is what gets
combined with the children's errors (before the 0.001 floor). -/
theorem c8_shoreline_boost {h : int2 → ℚ} {f : Nat} {tbl : List ℚ}
    {left rght apex : int2} {hgts : float3} {node : Nat} {tbl' : List ℚ} {v : ℚ}
    {ws : List Nat}
    (hx : Patch.RecursComputeVariance h (f + 1) tbl left rght apex hgts node =
      some (tbl', v, ws)) :
    (¬ (4 ≤ iabs (left.x - rght.x) ∨ 4 ≤ iabs (left.y - rght.y)) →
      v = fmax (1 / 1000)
        (if hgts.x * hgts.y < 0 ∨ hgts.x * h (Patch.midpoint left rght) < 0 ∨
            hgts.y * h (Patch.midpoint left rght) < 0 then
          fmax (fabs (h (Patch.midpoint left rght) - (hgts.x + hgts.y) * (1 / 2)) * (3 / 2)) 20
        else fabs (h (Patch.midpoint left rght) - (hgts.x + hgts.y) * (1 / 2)))) ∧
    (4 ≤ iabs (left.x - rght.x) ∨ 4 ≤ iabs (left.y - rght.y) →
      ∃ tbl1 v1 w1 tbl2 v2 w2,
        Patch.RecursComputeVariance h f tbl apex left (Patch.midpoint left rght)
          ⟨hgts.z, hgts.x, h (Patch.midpoint left rght)⟩ (2 * node) = some (tbl1, v1, w1) ∧
        Patch.RecursComputeVariance h f tbl1 rght apex (Patch.midpoint left rght)
          ⟨hgts.y, hgts.z, h (Patch.midpoint left rght)⟩ (2 * node + 1) =
            some (tbl2, v2, w2) ∧
        v = fmax (1 / 1000)
          (fmax (fmax
            (if hgts.x * hgts.y < 0 ∨ hgts.x * h (Patch.midpoint left rght) < 0 ∨
                hgts.y * h (Patch.midpoint left rght) < 0 then
              fmax (fabs (h (Patch.midpoint left rght) - (hgts.x + hgts.y) * (1 / 2)) *
                (3 / 2)) 20
            else fabs (h (Patch.midpoint left rght) - (hgts.x + hgts.y) * (1 / 2)))
            v1) v2)) := by
  unfold Patch.RecursComputeVariance at hx
  split at hx
  next hguard =>
    split at hx
    next h1 => exact absurd hx (by simp)
    next t1 v1 w1 h1 =>
      split at hx
      next h2 => exact absurd hx (by simp)
      next t2 v2 w2 h2 =>
        simp only [Option.some.injEq] at hx
        unfold Patch.storeVariance at hx
        constructor
        · intro hng
          exact absurd hguard hng
        · intro _
          refine ⟨t1, v1, w1, t2, v2, w2, h1, h2, ?_⟩
          split at hx <;>
          · simp only [Prod.mk.injEq] at hx
            rw [← hx.2.1]
            rfl
  next hguard =>
    simp only [Option.some.injEq] at hx
    unfold Patch.storeVariance at hx
    constructor
    · intro _
      split at hx <;>
      · simp only [Prod.mk.injEq] at hx
        rw [← hx.2.1]
        rfl
    · intro hg
      exact absurd hg hguard

set_option maxRecDepth 100000 in
/-- Witness for `c8_shoreline_boost`: a 2-cell footprint with positive corner
heights and a negative midpoint height (a shoreline crossing), whose local
error 2 is boosted to `max(2 * 1.5, 20) = 20`. -/
theorem c8_shoreline_boost_witness :
    (20 : ℚ) = fmax (1 / 1000)
      (if (1 : ℚ) * 1 < 0 ∨ (1 : ℚ) * (-1) < 0 ∨ (1 : ℚ) * (-1) < 0 then
        fmax (fabs ((-1) - ((1 : ℚ) + 1) * (1 / 2)) * (3 / 2)) 20
      else fabs ((-1) - ((1 : ℚ) + 1) * (1 / 2))) :=
  (@c8_shoreline_boost (fun _ => -1) 0 [0, 0] ⟨0, 2⟩ ⟨2, 0⟩ ⟨0, 0⟩ ⟨1, 1, 1⟩ 1
      [0, 20] 20 [1] (by with_unfolding_all decide)).1 (by decide)

/-- C5: `RecursTessellate` returns without splitting exactly when the
footprint is at most one unit in both axes or the metric (stored variance
clamped by `varianceMaxLimit`, times `PATCH_SIZE`, footprint size and the
camera LOD factor for indices within the stored depth, the default constant
`10` past it — see `Patch.triVarianceAt`) does not exceed the threshold 1;
otherwise it invokes `Split` on the node and, if the node became a branch,
recurses into both children with bisected footprints. -/
theorem c5_tessellation_stop (tbl : List ℚ) (lim lod : ℚ) (f : Nat) (s : SplitState)
    (tri : Nat) (left right apex : int2) (node : Nat) :
    (iabs (left.x - right.x) ≤ 1 ∧ iabs (left.y - right.y) ≤ 1 →
      Patch.RecursTessellate tbl lim lod (f + 1) s tri left right apex node = some (s, [])) ∧
    (¬ (iabs (left.x - right.x) ≤ 1 ∧ iabs (left.y - right.y) ≤ 1) →
      Patch.triVarianceAt tbl lim lod left right node ≤ 1 →
      Patch.RecursTessellate tbl lim lod (f + 1) s tri left right apex node =
        some (s, Patch.varReadsAt node)) ∧
    (¬ (iabs (left.x - right.x) ≤ 1 ∧ iabs (left.y - right.y) ≤ 1) →
      ¬ (Patch.triVarianceAt tbl lim lod left right node ≤ 1) →
      Patch.RecursTessellate tbl lim lod (f + 1) s tri left right apex node =
        match Patch.Split f s tri with
        | none => none
        | some (s, _) =>
          if (s.node tri).IsBranch then
            match (s.node tri).LeftChild, (s.node tri).RightChild with
            | some lc, some rc =>
              match Patch.RecursTessellate tbl lim lod f s lc apex left
                  (Patch.midpoint left right) (2 * node) with
              | none => none
              | some (s, r1) =>
                match Patch.RecursTessellate tbl lim lod f s rc right apex
                    (Patch.midpoint left right) (2 * node + 1) with
                | none => none
                | some (s, r2) => some (s, Patch.varReadsAt node ++ r1 ++ r2)
            | _, _ => some (s, Patch.varReadsAt node)
          else some (s, Patch.varReadsAt node)) := by
  refine ⟨?_, ?_, ?_⟩
  · intro hsmall
    conv_lhs => unfold Patch.RecursTessellate
    rw [if_pos hsmall]
  · intro hsmall hvar
    conv_lhs => unfold Patch.RecursTessellate
    rw [if_neg hsmall, if_pos hvar]
  · intro hsmall hvar
    conv_lhs => unfold Patch.RecursTessellate
    rw [if_neg hsmall, if_neg hvar]

/-- Witness for `c5_tessellation_stop`: a one-unit footprint stops at once,
and a large footprint with zero stored variance stops on the metric. -/
theorem c5_tessellation_stop_witness :
    (Patch.RecursTessellate [] 1 1 1 exhaustedPatch 0 ⟨0, 1⟩ ⟨1, 0⟩ ⟨0, 0⟩ 1 =
      some (exhaustedPatch, [])) ∧
    (Patch.RecursTessellate [] 1 1 1 exhaustedPatch 0 ⟨0, 128⟩ ⟨128, 0⟩ ⟨0, 0⟩ 1 =
      some (exhaustedPatch, Patch.varReadsAt 1)) :=
  ⟨(c5_tessellation_stop [] 1 1 0 exhaustedPatch 0 ⟨0, 1⟩ ⟨1, 0⟩ ⟨0, 0⟩ 1).1 (by decide),
   (c5_tessellation_stop [] 1 1 0 exhaustedPatch 0 ⟨0, 128⟩ ⟨128, 0⟩ ⟨0, 0⟩ 1).2.1
     (by decide) (by with_unfolding_all decide)⟩

/-- C6 counterexample: with total capacity 12 split over 6 worker threads the
code's floor is one-third of the total (`12 / 3 = 4`), not one-third of the
naive even split (`(12 / 6) / 3 = 0`): `InitPools` builds six 4-slot pools
where the claim predicts 2-slot pools. -/
theorem c6_sizing_counterexample :
    CTriNodePool.perThreadCapacity 12 6 = 4 ∧ claimPerThreadCapacity 12 6 = 2 ∧
    (CTriNodePool.InitPools 6 12).map (fun p => p.pool.length) = List.replicate 6 4 ∧
    CTriNodePool.perThreadCapacity 12 6 ≠ claimPerThreadCapacity 12 6 := by
  refine ⟨by decide, by decide, by decide, by decide⟩

/-- C6 (amended): `InitPools` builds one pool per worker thread; each has
watermark zero and capacity equal to the naive even split `total/numThreads`
floored at one-third of the *total* requested capacity, rounded up to an even
number of slots (so the capacity is even, at least `total/numThreads`, at
least `total/3`, and exceeds neither bound by more than one). -/
theorem c6_initpools_sizing (newPoolSize numThreads : Nat) (p : CTriNodePool)
    (hp : p ∈ CTriNodePool.InitPools numThreads newPoolSize) :
    p.pool.length = CTriNodePool.perThreadCapacity newPoolSize numThreads ∧
    p.pool.length % 2 = 0 ∧
    newPoolSize / numThreads ≤ p.pool.length ∧
    newPoolSize / 3 ≤ p.pool.length ∧
    p.pool.length ≤ max (newPoolSize / numThreads) (newPoolSize / 3) + 1 ∧
    p.nextTriNodeIdx = 0 ∧
    (CTriNodePool.InitPools numThreads newPoolSize).length = numThreads := by
  unfold CTriNodePool.InitPools at hp ⊢
  have hp' := List.eq_of_mem_replicate hp
  subst hp'
  have hand : ∀ n : Nat, n &&& 1 = n % 2 := fun n => Nat.and_one_is_mod n
  unfold CTriNodePool.perThreadCapacity CTriNodePool.thrPoolSize
  simp only [List.length_replicate, hand]
  refine ⟨by trivial, by omega, ?_, ?_, ?_, by trivial, by simp⟩
  · have := Nat.le_max_left (newPoolSize / numThreads) (newPoolSize / 3)
    omega
  · have := Nat.le_max_right (newPoolSize / numThreads) (newPoolSize / 3)
    omega
  · omega

/-- Witness for `c6_initpools_sizing` at total capacity 12 over 6 threads. -/
theorem c6_initpools_sizing_witness :
    (⟨List.replicate 4 default, 0⟩ : CTriNodePool) ∈ CTriNodePool.InitPools 6 12 ∧
    (⟨List.replicate 4 default, 0⟩ : CTriNodePool).pool.length =
      CTriNodePool.perThreadCapacity 12 6 :=
  ⟨by decide,
   (c6_initpools_sizing 12 6 ⟨List.replicate 4 default, 0⟩ (by decide)).1⟩

theorem foldl_or_eq_any (l : List CTriNodePool) :
    (l.foldl (fun acc p => acc || p.OutOfNodes) false) = l.any fun p => p.OutOfNodes := by
  have hgen : ∀ (l : List CTriNodePool) (b : Bool),
      l.foldl (fun acc p => acc || p.OutOfNodes) b = (b || l.any fun p => p.OutOfNodes) := by
    intro l
    induction l with
    | nil => intro b; simp
    | cons a t ih => intro b; simp [ih, Bool.or_assoc]
  simpa using hgen l false

/-- C7: `ResetAll` resets every per-thread pool of the pass; it rebuilds all
of them at twice the previous total size capped at the hard ceiling exactly
when at least one pool of the pass was exhausted during the prior frame and
the current total size is below the ceiling; otherwise the pools are only
cleared and keep their sizes. -/
theorem c7_resetall_policy (numThreads : Nat) (st : PoolPassState) :
    (∀ p, p ∈ (CTriNodePool.ResetAll numThreads st).pools → p.nextTriNodeIdx = 0) ∧
    (¬ ((st.pools.any fun p => p.OutOfNodes) = true ∧ st.curPoolSize < st.maxPoolSize) →
      CTriNodePool.ResetAll numThreads st =
        { st with pools := st.pools.map CTriNodePool.Reset } ∧
      (CTriNodePool.ResetAll numThreads st).pools.map (fun p => p.pool.length) =
        st.pools.map fun p => p.pool.length) ∧
    ((st.pools.any fun p => p.OutOfNodes) = true ∧ st.curPoolSize < st.maxPoolSize →
      CTriNodePool.ResetAll numThreads st =
        { pools := CTriNodePool.InitPools numThreads (min (st.curPoolSize * 2) st.maxPoolSize),
          curPoolSize := min (st.curPoolSize * 2) st.maxPoolSize,
          maxPoolSize := st.maxPoolSize }) := by
  have hre : ∀ p : CTriNodePool, (CTriNodePool.Reset p).nextTriNodeIdx = 0 := fun p => rfl
  have hlen : ∀ p : CTriNodePool, (CTriNodePool.Reset p).pool.length = p.pool.length := by
    intro p
    unfold CTriNodePool.Reset
    simp
  unfold CTriNodePool.ResetAll
  rw [foldl_or_eq_any]
  rcases hout : (st.pools.any fun p => p.OutOfNodes) with _ | _
  · simp only [Bool.not_false, if_pos]
    refine ⟨?_, fun _ => ⟨by trivial, ?_⟩, fun hc => absurd hc.1 (by simp [hout])⟩
    · intro p hp
      simp only [List.mem_map] at hp
      obtain ⟨q, hq, hqe⟩ := hp
      rw [← hqe]
      exact hre q
    · simp [hlen]
  · simp only [Bool.not_true, if_neg, Bool.false_eq_true, not_false_eq_true]
    by_cases hcap : st.maxPoolSize ≤ st.curPoolSize
    · rw [if_pos hcap]
      refine ⟨?_, fun _ => ⟨by trivial, by simp [hlen]⟩, fun hc => absurd hc.2 (by omega)⟩
      intro p hp
      simp only [List.mem_map] at hp
      obtain ⟨q, hq, hqe⟩ := hp
      rw [← hqe]
      exact hre q
    · rw [if_neg hcap]
      refine ⟨?_, fun hc => absurd ⟨by simp [hout], by omega⟩ hc, fun _ => rfl⟩
      intro p hp
      unfold CTriNodePool.InitPools at hp
      rw [List.eq_of_mem_replicate hp]

/-- Witness for `c7_resetall_policy`: one exhausted zero-size pool below the
ceiling triggers the doubling rebuild. -/
theorem c7_resetall_policy_witness :
    CTriNodePool.ResetAll 1 ⟨[⟨[], 0⟩], 2, 8⟩ =
      { pools := CTriNodePool.InitPools 1 (min (2 * 2) 8),
        curPoolSize := min (2 * 2) 8, maxPoolSize := 8 } :=
  (c7_resetall_policy 1 ⟨[⟨[], 0⟩], 2, 8⟩).2.2 ⟨by decide, by decide⟩

set_option maxRecDepth 400000 in
theorem c1states_border : (C1States.all borderExact) = true := by decide

/-- C9: when all four root neighbor slots are populated,
`GenerateBorderIndices` emits an empty border list; and on every reachable
capacity-8 tree the skirt quads each border walk emits are exactly the leaf
edges lying on the corresponding map edge (`borderExact`). -/
theorem c9_border_extraction :
    (∀ (fuel : Nat) (s : SplitState),
      (s.node 0).LeftNeighbor ≠ none → (s.node 0).RightNeighbor ≠ none →
      (s.node 1).RightNeighbor ≠ none → (s.node 1).LeftNeighbor ≠ none →
      Patch.GenerateBorderIndices fuel s = some []) ∧
    (∀ s : SplitState, Patch.ReachSplit 8 s → borderExact s = true) := by
  constructor
  · intro fuel s h1 h2 h3 h4
    obtain ⟨v1, hv1⟩ := Option.ne_none_iff_exists'.mp h1
    obtain ⟨v2, hv2⟩ := Option.ne_none_iff_exists'.mp h2
    obtain ⟨v3, hv3⟩ := Option.ne_none_iff_exists'.mp h3
    obtain ⟨v4, hv4⟩ := Option.ne_none_iff_exists'.mp h4
    simp [Patch.GenerateBorderIndices, hv1, hv2, hv3, hv4]
  · intro s hre
    exact List.all_eq_true.mp c1states_border s (mem_of_memS (reach_mem hre))

set_option maxRecDepth 400000 in
/-- Witness for `c9_border_extraction`: a patch with all four root neighbor
slots populated, and the reachable one-split state. -/
theorem c9_border_extraction_witness :
    Patch.GenerateBorderIndices 4
      ⟨{ LeftNeighbor := some 1, RightNeighbor := some 1 },
       { LeftNeighbor := some 0, RightNeighbor := some 0 }, ⟨[], 0⟩⟩ = some [] ∧
    borderExact C1S1 = true :=
  ⟨c9_border_extraction.1 4
      ⟨{ LeftNeighbor := some 1, RightNeighbor := some 1 },
       { LeftNeighbor := some 0, RightNeighbor := some 0 }, ⟨[], 0⟩⟩
      (by decide) (by decide) (by decide) (by decide),
   c9_border_extraction.2 C1S1
     (Patch.ReachSplit.step Patch.ReachSplit.init (by decide)
       (by decide : Patch.Split 8 (Patch.ResetPatch 8) 0 = some (C1S1, true)))⟩

theorem Patch.recursComputeVariance_writes_lt {h : int2 → ℚ} :
    ∀ {f : Nat} {tbl : List ℚ} {left rght apex : int2} {hgts : float3} {node : Nat}
    {out : List ℚ × ℚ × List Nat},
    Patch.RecursComputeVariance h f tbl left rght apex hgts node = some out →
    ∀ w ∈ out.2.2, w < 2 ^ VARIANCE_DEPTH := by
  intro f
  induction f with
  | zero => intro tbl l r a hg node out hx; simp [Patch.RecursComputeVariance] at hx
  | succ f ih =>
    intro tbl l r a hg node out hx
    unfold Patch.RecursComputeVariance at hx
    split at hx
    · split at hx
      next h1 => exact absurd hx (by simp)
      next t1 v1 w1 h1 =>
        split at hx
        next h2 => exact absurd hx (by simp)
        next t2 v2 w2 h2 =>
          simp only [Option.some.injEq] at hx
          rw [← hx]
          unfold Patch.storeVariance
          split
          next hnode =>
            intro w hw
            simp only [List.mem_append, List.mem_singleton] at hw
            rcases hw with (hw | hw) | hw
            · exact ih h1 w hw
            · exact ih h2 w hw
            · omega
          next hnode =>
            intro w hw
            simp only [List.mem_append] at hw
            rcases hw with hw | hw
            · exact ih h1 w hw
            · exact ih h2 w hw
    · simp only [Option.some.injEq] at hx
      rw [← hx]
      unfold Patch.storeVariance
      split
      next hnode =>
        intro w hw
        simp only [List.nil_append, List.mem_singleton] at hw
        omega
      next hnode =>
        intro w hw
        simp at hw

theorem Patch.varReadsAt_lt (node : Nat) : ∀ w ∈ Patch.varReadsAt node, w < 2 ^ VARIANCE_DEPTH := by
  unfold Patch.varReadsAt
  split
  next hn =>
    intro w hw
    simp only [List.mem_singleton] at hw
    omega
  next hn =>
    intro w hw
    simp at hw

theorem Patch.recursTessellate_reads_lt {tbl : List ℚ} {lim lod : ℚ} :
    ∀ {f : Nat} {s : SplitState} {tri : Nat} {left right apex : int2} {node : Nat}
    {out : SplitState × List Nat},
    Patch.RecursTessellate tbl lim lod f s tri left right apex node = some out →
    ∀ w ∈ out.2, w < 2 ^ VARIANCE_DEPTH := by
  intro f
  induction f with
  | zero => intro s tri l r a node out hx; simp [Patch.RecursTessellate] at hx
  | succ f ih =>
    intro s tri l r a node out hx
    unfold Patch.RecursTessellate at hx
    split at hx
    · simp only [Option.some.injEq] at hx
      rw [← hx]
      intro w hw
      simp at hw
    · split at hx
      · simp only [Option.some.injEq] at hx
        rw [← hx]
        exact Patch.varReadsAt_lt node
      · split at hx
        next hsp => exact absurd hx (by simp)
        next s1 r1 hsp =>
          split at hx
          next hbr =>
            split at hx
            next lc rc hlc hrc =>
              split at hx
              next hr1 => exact absurd hx (by simp)
              next s2 rd1 hr1 =>
                split at hx
                next hr2 => exact absurd hx (by simp)
                next s3 rd2 hr2 =>
                  simp only [Option.some.injEq] at hx
                  rw [← hx]
                  intro w hw
                  simp only [List.mem_append] at hw
                  rcases hw with (hw | hw) | hw
                  · exact Patch.varReadsAt_lt node w hw
                  · exact ih hr1 w hw
                  · exact ih hr2 w hw
            next hlr =>
              simp only [Option.some.injEq] at hx
              rw [← hx]
              exact Patch.varReadsAt_lt node
          next hbr =>
            simp only [Option.some.injEq] at hx
            rw [← hx]
            exact Patch.varReadsAt_lt node

/-- C10: the per-patch variance tables are allocated with exactly
`2 ^ VARIANCE_DEPTH` entries; `RecursComputeVariance` preserves the table
length and only writes heap indices below `2 ^ VARIANCE_DEPTH`; and
`RecursTessellate` only reads heap indices below `2 ^ VARIANCE_DEPTH` — so
every table access of a tessellation or variance pass is in bounds. -/
theorem c10_variance_bounds :
    Patch.varianceTableInit.length = 2 ^ VARIANCE_DEPTH ∧
    (∀ (h : int2 → ℚ) (f : Nat) (tbl : List ℚ) (left rght apex : int2) (hgts : float3)
        (node : Nat) (out : List ℚ × ℚ × List Nat),
      Patch.RecursComputeVariance h f tbl left rght apex hgts node = some out →
      out.1.length = tbl.length ∧ ∀ w ∈ out.2.2, w < 2 ^ VARIANCE_DEPTH) ∧
    (∀ (tbl : List ℚ) (lim lod : ℚ) (f : Nat) (s : SplitState) (tri : Nat)
        (left right apex : int2) (node : Nat) (out : SplitState × List Nat),
      Patch.RecursTessellate tbl lim lod f s tri left right apex node = some out →
      ∀ w ∈ out.2, w < 2 ^ VARIANCE_DEPTH) :=
  ⟨by rw [Patch.varianceTableInit, List.length_replicate]; decide,
   fun h f tbl l r a hg node out hx =>
     ⟨Patch.recursComputeVariance_length hx, Patch.recursComputeVariance_writes_lt hx⟩,
   fun tbl lim lod f s tri l r a node out hx => Patch.recursTessellate_reads_lt hx⟩

set_option maxRecDepth 100000 in
/-- Witness for `c10_variance_bounds` on concrete variance and tessellation
runs. -/
theorem c10_variance_bounds_witness :
    (([(0 : ℚ), 1 / 1000] : List ℚ).length = ([(0 : ℚ), 0] : List ℚ).length ∧
      ∀ w ∈ [4, 5, 2, 6, 7, 3, 1], w < 2 ^ VARIANCE_DEPTH) ∧
    (∀ w ∈ Patch.varReadsAt 1, w < 2 ^ VARIANCE_DEPTH) :=
  ⟨(c10_variance_bounds.2.1 (fun _ => 0) 4 [0, 0] ⟨0, 4⟩ ⟨4, 0⟩ ⟨0, 0⟩ ⟨0, 0, 0⟩ 1
      ([0, 1 / 1000], 1 / 1000, [4, 5, 2, 6, 7, 3, 1]) (by with_unfolding_all decide)),
   (c10_variance_bounds.2.2 [] 1 1 1 exhaustedPatch 0 ⟨0, 128⟩ ⟨128, 0⟩ ⟨0, 0⟩ 1
      (exhaustedPatch, Patch.varReadsAt 1) (by with_unfolding_all decide))⟩
